import Mathlib

set_option maxRecDepth 100000
set_option maxHeartbeats 4000000

/-!
Shallow embedding of the dmg-rs Game Boy emulator core (CPU LR35902, MMU,
cartridges, PPU, joypad) and proofs about the claims of its specification.
Machine integers are modelled as `Nat` with explicit `% 2^w` at the points
where the Rust code casts or wraps.
-/

namespace DmgRs

/-- Functional update of a fixed-size byte array modelled as a total function. -/
def updf (f : Nat → Nat) (i v : Nat) : Nat → Nat :=
  fun j => if j = i then v else f j

/-- Bitwise `!x` on a `u8` value (Rust `!` on `u8`). -/
def bnot8 (x : Nat) : Nat := x ^^^ 0xFF

/-- Reinterpret a byte as an `i8` (Rust `as i8`, two's complement). -/
def toI8 (x : Nat) : Int := if x % 256 < 128 then ((x % 256 : Nat) : Int) else ((x % 256 : Nat) : Int) - 256

/-- Wrap an integer into `u16` range (Rust `wrapping_add_signed` result). -/
def wrap16 (x : Int) : Nat := (x % 65536).toNat

/-!  ## CPU register file (`lr35902.rs`, `Registers`) -/

inductive Register8 | A | F | B | C | D | E | H | L
deriving DecidableEq, Repr

inductive Register16 | AF | BC | DE | HL | SP | PC
deriving DecidableEq, Repr

structure Registers where
  af : Nat := 0
  bc : Nat := 0
  de : Nat := 0
  hl : Nat := 0
  sp : Nat := 0
  pc : Nat := 0
deriving Repr, DecidableEq

def ZFLAGBIT : Nat := 7
def NFLAGBIT : Nat := 6
def HFLAGBIT : Nat := 5
def CFLAGBIT : Nat := 4

/-- `Registers::set_8`. The `value` parameter is a `u8`. -/
def Registers.set_8 (r : Registers) (register : Register8) (value : Nat) : Registers :=
  let value16 := value % 256
  let set_higher := fun reg => (value16 <<< 8) ||| (reg &&& 0x00FF)
  let set_lower := fun reg => value16 ||| (reg &&& 0xFF00)
  match register with
  | .A => { r with af := set_higher r.af }
  | .F => { r with af := set_lower r.af }
  | .B => { r with bc := set_higher r.bc }
  | .C => { r with bc := set_lower r.bc }
  | .D => { r with de := set_higher r.de }
  | .E => { r with de := set_lower r.de }
  | .H => { r with hl := set_higher r.hl }
  | .L => { r with hl := set_lower r.hl }

/-- `Registers::get_8`. The `as u8` casts are `% 256`. -/
def Registers.get_8 (r : Registers) (register : Register8) : Nat :=
  let get_lower := fun (reg : Nat) => reg &&& 0x00FF
  let get_higher := fun (reg : Nat) => (reg >>> 8) % 256
  match register with
  | .A => get_higher r.af
  | .F => get_lower r.af
  | .B => get_higher r.bc
  | .C => get_lower r.bc
  | .D => get_higher r.de
  | .E => get_lower r.de
  | .H => get_higher r.hl
  | .L => get_lower r.hl

/-- `Registers::set_16`; the `value` parameter is a `u16`. -/
def Registers.set_16 (r : Registers) (register : Register16) (value : Nat) : Registers :=
  match register with
  | .AF => { r with af := value % 65536 }
  | .BC => { r with bc := value % 65536 }
  | .DE => { r with de := value % 65536 }
  | .HL => { r with hl := value % 65536 }
  | .SP => { r with sp := value % 65536 }
  | .PC => { r with pc := value % 65536 }

def Registers.get_16 (r : Registers) (register : Register16) : Nat :=
  match register with
  | .AF => r.af
  | .BC => r.bc
  | .DE => r.de
  | .HL => r.hl
  | .SP => r.sp
  | .PC => r.pc

/-- `Registers::inc_pc` (`pc += value`, wrapping in release mode). -/
def Registers.inc_pc (r : Registers) (value : Nat) : Registers :=
  { r with pc := (r.pc + value) % 65536 }

def Registers.set_zero_flag (r : Registers) (value : Bool) : Registers :=
  let f := r.get_8 .F
  if value then r.set_8 .F (f ||| (1 <<< ZFLAGBIT))
  else r.set_8 .F (f &&& bnot8 (1 <<< ZFLAGBIT))

def Registers.get_zero_flag (r : Registers) : Bool :=
  ((r.get_8 .F >>> ZFLAGBIT) &&& 1) ≠ 0

def Registers.set_n_flag (r : Registers) (value : Bool) : Registers :=
  let f := r.get_8 .F
  if value then r.set_8 .F (f ||| (1 <<< NFLAGBIT))
  else r.set_8 .F (f &&& bnot8 (1 <<< NFLAGBIT))

def Registers.get_n_flag (r : Registers) : Bool :=
  ((r.get_8 .F >>> NFLAGBIT) &&& 1) ≠ 0

def Registers.set_h_flag (r : Registers) (value : Bool) : Registers :=
  let f := r.get_8 .F
  if value then r.set_8 .F (f ||| (1 <<< HFLAGBIT))
  else r.set_8 .F (f &&& bnot8 (1 <<< HFLAGBIT))

def Registers.get_h_flag (r : Registers) : Bool :=
  ((r.get_8 .F >>> HFLAGBIT) &&& 1) ≠ 0

def Registers.set_carry_flag (r : Registers) (value : Bool) : Registers :=
  let f := r.get_8 .F
  if value then r.set_8 .F (f ||| (1 <<< CFLAGBIT))
  else r.set_8 .F (f &&& bnot8 (1 <<< CFLAGBIT))

def Registers.get_carry_flag (r : Registers) : Bool :=
  ((r.get_8 .F >>> CFLAGBIT) &&& 1) ≠ 0

def Registers.set_flags (r : Registers) (z n h c : Bool) : Registers :=
  (((r.set_zero_flag z).set_n_flag n).set_h_flag h).set_carry_flag c

/-!  ## Cartridges (`cartridge.rs`)

Rust `Vec` indexing panics out of bounds; reads and writes that can go out of
bounds are therefore `Option`-valued, with `none` for the panic. The fixed
arrays (`[u8; 0x2000]`) are total functions. -/

/-- `CartridgeROM` (no MBC). `ram` is the fixed `[u8; 0x2000]`. -/
structure CartridgeROM where
  rom : List Nat
  ram : Nat → Nat

/-- `CartridgeROM::write_8`: writes outside A000–BFFF are logged and ignored. -/
def CartridgeROM.write_8 (c : CartridgeROM) (address value : Nat) : CartridgeROM :=
  if 0xA000 ≤ address ∧ address ≤ 0xBFFF then
    { c with ram := updf c.ram (address - 0xA000) (value % 256) }
  else c

/-- `CartridgeROM::write_16` (little-endian, second byte at `(address-0xA000)+1`). -/
def CartridgeROM.write_16 (c : CartridgeROM) (address value : Nat) : CartridgeROM :=
  if 0xA000 ≤ address ∧ address ≤ 0xBFFF then
    { c with ram := updf (updf c.ram (address - 0xA000) (value % 256))
                         ((address - 0xA000) + 1) ((value >>> 8) % 256) }
  else c

/-- `CartridgeROM::read_8`; the out-of-range arm panics. -/
def CartridgeROM.read_8 (c : CartridgeROM) (address : Nat) : Option Nat :=
  if address ≤ 0x7FFF then c.rom.get? address
  else if 0xA000 ≤ address ∧ address ≤ 0xBFFF then some (c.ram (address - 0xA000))
  else none

def CartridgeROM.read_16 (c : CartridgeROM) (address : Nat) : Option Nat := do
  let n1 ← c.read_8 address
  let n2 ← c.read_8 (address + 1)
  pure (n1 ||| (n2 <<< 8))

/-- `CartridgeMBC1`.  `_rom_bank_count` is computed by `new` but never used
by the bank-switch logic, exactly as in the source. -/
structure CartridgeMBC1 where
  rom : List Nat
  ram : List Nat
  rom_bank_count : Nat
  ram_bank_count : Nat
  selected_rom_bank : Nat
  selected_ram_bank : Nat

/-- `CartridgeMBC1::new` for a given rom image (header bytes 0x148/0x149). -/
def CartridgeMBC1.new (rom : List Nat) : Option CartridgeMBC1 :=
  let rom_size := rom.getD 0x0148 0
  let rom_bank_count := 1 <<< (rom_size + 1)
  let ram_size := rom.getD 0x0149 0
  let pick : Option (List Nat × Nat) :=
    if ram_size = 0x00 then some ([], 0)
    else if ram_size = 0x02 then some (List.replicate 0x2000 0, 1)
    else if ram_size = 0x03 then some (List.replicate 0x4000 0, 4)
    else if ram_size = 0x04 then some (List.replicate 0x20000 0, 16)
    else if ram_size = 0x05 then some (List.replicate 0x10000 0, 8)
    else none
  match pick with
  | none => none
  | some (ram, ram_bank_count) =>
      some { rom := rom, ram := ram, rom_bank_count := rom_bank_count,
             ram_bank_count := ram_bank_count, selected_rom_bank := 1,
             selected_ram_bank := 0 }

/-- `CartridgeMBC1::select_rom_bank`: low 5 bits, 0 renormalised to 1.
No reduction modulo `rom_bank_count` happens. -/
def CartridgeMBC1.select_rom_bank (c : CartridgeMBC1) (value : Nat) : CartridgeMBC1 :=
  let v := value &&& 0x1F
  let v := if v = 0 then 1 else v
  { c with selected_rom_bank := v }

def CartridgeMBC1.select_ram_bank (c : CartridgeMBC1) (value : Nat) : CartridgeMBC1 :=
  { c with selected_ram_bank := value &&& 0x03 }

/-- `CartridgeMBC1::rom_read_8`; `Vec` indexing, panics out of bounds. -/
def CartridgeMBC1.rom_read_8 (c : CartridgeMBC1) (address : Nat) : Option Nat :=
  c.rom.get? (c.selected_rom_bank * 0x4000 + address - 0x4000)

def CartridgeMBC1.ram_write_8 (c : CartridgeMBC1) (address value : Nat) : Option CartridgeMBC1 :=
  let idx := c.selected_ram_bank * 0x2000 + address - 0xA000
  if idx < c.ram.length then some { c with ram := c.ram.set idx (value % 256) }
  else none

def CartridgeMBC1.ram_write_16 (c : CartridgeMBC1) (address value : Nat) : Option CartridgeMBC1 :=
  let idx0 := c.selected_ram_bank * 0x2000 + address - 0xA000
  let idx1 := c.selected_ram_bank * 0x2000 + (address + 1) - 0xA000
  if idx0 < c.ram.length ∧ idx1 < c.ram.length then
    some { c with ram := (c.ram.set idx0 (value % 256)).set idx1 ((value >>> 8) % 256) }
  else none

def CartridgeMBC1.ram_read_8 (c : CartridgeMBC1) (address : Nat) : Option Nat :=
  c.ram.get? (c.selected_ram_bank * 0x2000 + address - 0xA000)

/-- `impl Cartridge for CartridgeMBC1 :: write_8`. The 6000–7FFF arm is
`unimplemented!` and the fall-through arm `unreachable!`; both are `none`. -/
def CartridgeMBC1.write_8 (c : CartridgeMBC1) (address value : Nat) : Option CartridgeMBC1 :=
  if address ≤ 0x1FFF then some c
  else if address ≤ 0x3FFF then some (c.select_rom_bank value)
  else if address ≤ 0x5FFF then some (c.select_ram_bank value)
  else if address ≤ 0x7FFF then none
  else if 0xA000 ≤ address ∧ address ≤ 0xBFFF then c.ram_write_8 address value
  else none

def CartridgeMBC1.write_16 (c : CartridgeMBC1) (address value : Nat) : Option CartridgeMBC1 :=
  if 0xA000 ≤ address ∧ address ≤ 0xBFFF then c.ram_write_16 address value
  else none

/-- `impl Cartridge for CartridgeMBC1 :: read_8`. Note that 2000–3FFF is
not covered by any arm in the source and falls to `unreachable!`. -/
def CartridgeMBC1.read_8 (c : CartridgeMBC1) (address : Nat) : Option Nat :=
  if address ≤ 0x1FFF then c.rom.get? address
  else if 0x4000 ≤ address ∧ address ≤ 0x7FFF then c.rom_read_8 address
  else if 0xA000 ≤ address ∧ address ≤ 0xBFFF then c.ram_read_8 address
  else none

def CartridgeMBC1.rom_read_16 (c : CartridgeMBC1) (address : Nat) : Option Nat := do
  let n1 ← c.read_8 address
  let n2 ← c.read_8 (address + 1)
  pure (n1 ||| (n2 <<< 8))

def CartridgeMBC1.ram_read_16 (c : CartridgeMBC1) (address : Nat) : Option Nat := do
  let n1 ← c.read_8 address
  let n2 ← c.read_8 (address + 1)
  pure (n1 ||| (n2 <<< 8))

def CartridgeMBC1.read_16 (c : CartridgeMBC1) (address : Nat) : Option Nat :=
  if address ≤ 0x7FFF then c.rom_read_16 address
  else if 0xA000 ≤ address ∧ address ≤ 0xBFFF then c.ram_read_16 address
  else none

/-- The `Box<dyn Cartridge>` of the MMU: one of the two implementations. -/
inductive Cart
  | romOnly : CartridgeROM → Cart
  | mbc1 : CartridgeMBC1 → Cart

def Cart.read_8 : Cart → Nat → Option Nat
  | .romOnly c, a => c.read_8 a
  | .mbc1 c, a => c.read_8 a

def Cart.read_16 : Cart → Nat → Option Nat
  | .romOnly c, a => c.read_16 a
  | .mbc1 c, a => c.read_16 a

def Cart.write_8 : Cart → Nat → Nat → Option Cart
  | .romOnly c, a, v => some (.romOnly (c.write_8 a v))
  | .mbc1 c, a, v => (c.write_8 a v).map .mbc1

def Cart.write_16 : Cart → Nat → Nat → Option Cart
  | .romOnly c, a, v => some (.romOnly (c.write_16 a v))
  | .mbc1 c, a, v => (c.write_16 a v).map .mbc1

/-!  ## MMU (`mmu.rs`) -/

structure Mmu where
  memory : Nat → Nat
  cart : Cart
  boot_rom : Nat → Nat

def Mmu.boot_rom_enabled (m : Mmu) : Bool := m.memory 0xFF50 = 0

/-- Address range dispatched to the cartridge by the MMU match. -/
def cartRange (address : Nat) : Prop :=
  address ≤ 0x7FFF ∨ (0xA000 ≤ address ∧ address ≤ 0xBFFF)

instance (address : Nat) : Decidable (cartRange address) := by
  unfold cartRange; infer_instance

/-- `MemoryMapUnit::read_8`. The FF00 arm is the joypad stub
(`0x0F // TEMPORARY UNTIL INPUTS ARE IMPLEMENTED`).  All stored cells are
`u8`-typed in Rust; the model functions are `Nat`-valued, so the result is
reduced `% 256` to reflect the storage type. -/
def Mmu.read_8 (m : Mmu) (address : Nat) : Option Nat :=
  if m.boot_rom_enabled ∧ address ≤ 0xFF then some (m.boot_rom address % 256)
  else if cartRange address then (m.cart.read_8 address).map (· % 256)
  else if address = 0xFF00 then some 0x0F
  else some (m.memory address % 256)

/-- `MemoryMapUnit::read_16`. -/
def Mmu.read_16 (m : Mmu) (address : Nat) : Option Nat :=
  if m.boot_rom_enabled ∧ address ≤ 0xFF then do
    let n1 ← m.read_8 address
    let n2 ← m.read_8 (address + 1)
    pure (n1 ||| (n2 <<< 8))
  else if cartRange address then (m.cart.read_16 address).map (· % 65536)
  else do
    let n1 ← m.read_8 address
    let n2 ← m.read_8 ((address + 1) % 65536)
    pure (n1 ||| (n2 <<< 8))

/-- One iteration of the `dma_transfer` loop body. -/
def Mmu.dma_write (m : Mmu) (i v : Nat) : Mmu :=
  { m with memory := updf m.memory (0xFE00 + i) (v % 256) }

/-- `MemoryMapUnit::dma_transfer` loop, iterations `i, i+1, …` while
`fuel` remains.  The destination `0xFE00 + i` for `i < 0x100` always lands in
the plain-memory arm of `write_8`, which is inlined here. -/
def Mmu.dma_loop (m : Mmu) (starting : Nat) : Nat → Nat → Option Mmu
  | _, 0 => some m
  | i, fuel + 1 => do
      let value ← m.read_8 (starting + i)
      (m.dma_write i value).dma_loop starting (i + 1) fuel

def Mmu.dma_transfer (m : Mmu) (source : Nat) : Option Mmu :=
  let starting := (source % 256) <<< 8
  m.dma_loop starting 0 0x100

/-- `MemoryMapUnit::write_8`. The `value` parameter is a `u8`. -/
def Mmu.write_8 (m : Mmu) (address value : Nat) : Option Mmu :=
  if cartRange address then do
    let c ← m.cart.write_8 address value
    pure { m with cart := c }
  else if address = 0xFF46 then m.dma_transfer value
  else some { m with memory := updf m.memory address (value % 256) }

/-- `MemoryMapUnit::write_16` (little-endian decomposition into `memory`). -/
def Mmu.write_16 (m : Mmu) (address value : Nat) : Option Mmu :=
  if cartRange address then do
    let c ← m.cart.write_16 address value
    pure { m with cart := c }
  else
    some { m with memory := updf (updf m.memory address (value % 256))
                                 ((address + 1) % 65536) ((value >>> 8) % 256) }

/-- `MemoryMapUnit::vram` (the slice `memory[0x8000..=0x9FFF]`, elements
`u8`-typed) as offset-indexing. -/
def Mmu.vram (m : Mmu) (offset : Nat) : Nat := m.memory (0x8000 + offset) % 256

/-!  ## CPU (`lr35902.rs`, `LR35902`)

The `LR35902` struct together with its shared `MemoryMapUnit` is one
`Machine`.  Rust `Vec` panics and `unreachable!`/`unimplemented!` arms
propagate as `none`.  Each instruction returns the machine and its T-cycle
cost. -/

def VBLANKBIT : Nat := 1 <<< 0
def LCDBIT : Nat := 1 <<< 1
def TIMERBIT : Nat := 1 <<< 2
def SERIALBIT : Nat := 1 <<< 3
def JOYPADBIT : Nat := 1 <<< 4

structure Machine where
  registers : Registers
  mmu : Mmu
  ime : Bool
  halted : Bool

/- Wrappers for field access on the bundled state (the Rust code writes
`self.registers.…` and `self.mmu.borrow()…`). -/

def Machine.get_8 (m : Machine) (r : Register8) : Nat := m.registers.get_8 r
def Machine.set_8 (m : Machine) (r : Register8) (v : Nat) : Machine :=
  { m with registers := m.registers.set_8 r v }
def Machine.get_16 (m : Machine) (r : Register16) : Nat := m.registers.get_16 r
def Machine.set_16 (m : Machine) (r : Register16) (v : Nat) : Machine :=
  { m with registers := m.registers.set_16 r v }
def Machine.rset_flags (m : Machine) (z n h c : Bool) : Machine :=
  { m with registers := m.registers.set_flags z n h c }
def Machine.rset_zero_flag (m : Machine) (b : Bool) : Machine :=
  { m with registers := m.registers.set_zero_flag b }
def Machine.rset_n_flag (m : Machine) (b : Bool) : Machine :=
  { m with registers := m.registers.set_n_flag b }
def Machine.rset_h_flag (m : Machine) (b : Bool) : Machine :=
  { m with registers := m.registers.set_h_flag b }
def Machine.rset_carry_flag (m : Machine) (b : Bool) : Machine :=
  { m with registers := m.registers.set_carry_flag b }
def Machine.mread_8 (m : Machine) (a : Nat) : Option Nat := m.mmu.read_8 a
def Machine.mread_16 (m : Machine) (a : Nat) : Option Nat := m.mmu.read_16 a
def Machine.mwrite_8 (m : Machine) (a v : Nat) : Option Machine :=
  (m.mmu.write_8 a v).map (fun mm => { m with mmu := mm })
def Machine.mwrite_16 (m : Machine) (a v : Nat) : Option Machine :=
  (m.mmu.write_16 a v).map (fun mm => { m with mmu := mm })

/-- `LR35902::pc_next_8` (`pc += 1` wraps). -/
def Machine.pc_next_8 (m : Machine) : Option (Nat × Machine) := do
  let result ← m.mmu.read_8 m.registers.pc
  pure (result, { m with registers := { m.registers with pc := (m.registers.pc + 1) % 65536 } })

/-- `LR35902::pc_next_16`. -/
def Machine.pc_next_16 (m : Machine) : Option (Nat × Machine) := do
  let result ← m.mmu.read_16 m.registers.pc
  pure (result, { m with registers := { m.registers with pc := (m.registers.pc + 2) % 65536 } })

/- Load instructions -/

def Machine.load_8 (m : Machine) (destination source : Register8) : Option (Machine × Nat) :=
  some (m.set_8 destination (m.get_8 source), 4)

def Machine.load_8_at (m : Machine) (destination : Register16) (source : Register8) :
    Option (Machine × Nat) := do
  let address := m.get_16 destination
  let value := m.get_8 source
  let m ← m.mwrite_8 address value
  pure (m, 8)

def Machine.load_8_at_increment (m : Machine) (destination : Register16) (source : Register8) :
    Option (Machine × Nat) := do
  let (m, _) ← m.load_8_at destination source
  let m := m.set_16 destination ((m.get_16 destination + 1) % 65536)
  pure (m, 8)

def Machine.load_8_at_decrement (m : Machine) (destination : Register16) (source : Register8) :
    Option (Machine × Nat) := do
  let (m, _) ← m.load_8_at destination source
  let m := m.set_16 destination ((m.get_16 destination + 65536 - 1) % 65536)
  pure (m, 8)

def Machine.load_8_from (m : Machine) (destination : Register8) (source : Register16) :
    Option (Machine × Nat) := do
  let address := m.get_16 source
  let value ← m.mread_8 address
  pure (m.set_8 destination value, 8)

def Machine.load_8_from_increment (m : Machine) (destination : Register8) (source : Register16) :
    Option (Machine × Nat) := do
  let (m, _) ← m.load_8_from destination source
  let m := m.set_16 source ((m.get_16 source + 1) % 65536)
  pure (m, 8)

def Machine.load_8_from_decrement (m : Machine) (destination : Register8) (source : Register16) :
    Option (Machine × Nat) := do
  let (m, _) ← m.load_8_from destination source
  let m := m.set_16 source ((m.get_16 source + 65536 - 1) % 65536)
  pure (m, 8)

def Machine.load_8_immediate (m : Machine) (destination : Register8) : Option (Machine × Nat) := do
  let (value, m) ← m.pc_next_8
  pure (m.set_8 destination value, 8)

def Machine.load_8_immediate_at (m : Machine) (destination : Register16) :
    Option (Machine × Nat) := do
  let address := m.get_16 destination
  let (value, m) ← m.pc_next_8
  let m ← m.mwrite_8 address value
  pure (m, 12)

def Machine.load_8_from_immediate (m : Machine) (destination : Register8) :
    Option (Machine × Nat) := do
  let (address, m) ← m.pc_next_16
  let value ← m.mread_8 address
  pure (m.set_8 destination value, 16)

def Machine.load_8_at_immediate (m : Machine) (source : Register8) : Option (Machine × Nat) := do
  let (address, m) ← m.pc_next_16
  let value := m.get_8 source
  let m ← m.mwrite_8 address value
  pure (m, 16)

def Machine.load_8_from_ioport (m : Machine) (destination source : Register8) :
    Option (Machine × Nat) := do
  let address := 0xFF00 + m.get_8 source
  let value ← m.mread_8 address
  pure (m.set_8 destination value, 8)

def Machine.load_8_from_ioport_immediate (m : Machine) (destination : Register8) :
    Option (Machine × Nat) := do
  let (n, m) ← m.pc_next_8
  let address := 0xFF00 + n
  let value ← m.mread_8 address
  pure (m.set_8 destination value, 12)

def Machine.load_8_at_ioport (m : Machine) (destination source : Register8) :
    Option (Machine × Nat) := do
  let address := 0xFF00 + m.get_8 destination
  let value := m.get_8 source
  let m ← m.mwrite_8 address value
  pure (m, 8)

def Machine.load_8_at_ioport_immediate (m : Machine) (source : Register8) :
    Option (Machine × Nat) := do
  let (n, m) ← m.pc_next_8
  let address := 0xFF00 + n
  let value := m.get_8 source
  let m ← m.mwrite_8 address value
  pure (m, 12)

def Machine.load_16 (m : Machine) (destination source : Register16) : Option (Machine × Nat) :=
  some (m.set_16 destination (m.get_16 source), 8)

def Machine.load_16_at_immediate (m : Machine) (source : Register16) : Option (Machine × Nat) := do
  let (address, m) ← m.pc_next_16
  let value := m.get_16 source
  let m ← m.mwrite_16 address value
  pure (m, 20)

def Machine.load_16_immediate (m : Machine) (destination : Register16) :
    Option (Machine × Nat) := do
  let (value, m) ← m.pc_next_16
  pure (m.set_16 destination value, 12)

/-- `LR35902::load_16_add_immediate` (opcode F8), flag quirks as in source. -/
def Machine.load_16_add_immediate (m : Machine) (destination source : Register16) :
    Option (Machine × Nat) := do
  let (immediate, m) ← m.pc_next_8
  let value := m.get_16 source
  let res := ((value &&& 0x000F) + (immediate &&& 0x0F)) % 256
  let h_flag := decide (res > 0x0F)
  let c_flag := decide (value + immediate > 0xFFFF)
  let value2 := wrap16 ((value : Int) + toI8 immediate)
  let m := m.set_16 destination value2
  let m := m.rset_flags false false h_flag c_flag
  pure (m, 12)

def Machine.push (m : Machine) (source : Register16) : Option (Machine × Nat) := do
  let value := m.get_16 source
  let address := m.get_16 .SP
  let m := m.set_16 .SP ((address + 65536 - 2) % 65536)
  let m ← m.mwrite_16 ((address + 65536 - 2) % 65536) value
  pure (m, 16)

def Machine.pop (m : Machine) (destination : Register16) : Option (Machine × Nat) := do
  let address := m.get_16 .SP
  let value ← m.mread_16 address
  let m := m.set_16 destination value
  let m := m.set_16 .SP ((address + 2) % 65536)
  pure (m, 12)

/- Arithmetic instructions -/

/-- `LR35902::_add_8_inner`; parameters are `u8`. -/
def Machine._add_8_inner (m : Machine) (destination source carry : Nat) : Machine × Nat :=
  let h_flag := decide ((destination &&& 0x0F) + (source &&& 0x0F) + carry > 0x0F)
  let c_flag := decide (destination + source > 255)
  let res := (destination + source) % 256
  let c_flag := c_flag || decide (res + carry > 255)
  let res := (res + carry) % 256
  let z_flag := decide (res = 0)
  (m.rset_flags z_flag false h_flag c_flag, res)

def Machine.add_8 (m : Machine) (source : Register8) : Option (Machine × Nat) :=
  let value := m.get_8 source
  let a_value := m.get_8 .A
  let (m, res) := m._add_8_inner a_value value 0
  some (m.set_8 .A res, 4)

def Machine.add_8_from (m : Machine) (source : Register16) : Option (Machine × Nat) := do
  let address := m.get_16 source
  let value ← m.mread_8 address
  let a_value := m.get_8 .A
  let (m, res) := m._add_8_inner a_value value 0
  pure (m.set_8 .A res, 8)

def Machine.add_8_immediate (m : Machine) : Option (Machine × Nat) := do
  let (value, m) ← m.pc_next_8
  let a_value := m.get_8 .A
  let (m, res) := m._add_8_inner a_value value 0
  pure (m.set_8 .A res, 8)

def Machine.add_carry_8 (m : Machine) (source : Register8) : Option (Machine × Nat) :=
  let value := m.get_8 source
  let a_value := m.get_8 .A
  let carry := if m.registers.get_carry_flag then 1 else 0
  let (m, res) := m._add_8_inner a_value value carry
  some (m.set_8 .A res, 4)

def Machine.add_carry_8_from (m : Machine) (source : Register16) : Option (Machine × Nat) := do
  let address := m.get_16 source
  let value ← m.mread_8 address
  let a_value := m.get_8 .A
  let carry := if m.registers.get_carry_flag then 1 else 0
  let (m, res) := m._add_8_inner a_value value carry
  pure (m.set_8 .A res, 8)

def Machine.add_carry_8_immediate (m : Machine) : Option (Machine × Nat) := do
  let (value, m) ← m.pc_next_8
  let a_value := m.get_8 .A
  let carry := if m.registers.get_carry_flag then 1 else 0
  let (m, res) := m._add_8_inner a_value value carry
  pure (m.set_8 .A res, 8)

def Machine.inc_8 (m : Machine) (destination : Register8) : Option (Machine × Nat) :=
  let value := m.get_8 destination
  let h_flag := decide ((value &&& 0x0F) + 1 > 0x0F)
  let res := (value + 1) % 256
  let z_flag := decide (res = 0)
  let m := m.rset_zero_flag z_flag
  let m := m.rset_n_flag false
  let m := m.rset_h_flag h_flag
  some (m.set_8 destination res, 4)

def Machine.inc_8_at (m : Machine) (destination : Register16) : Option (Machine × Nat) := do
  let address := m.get_16 destination
  let value ← m.mread_8 address
  let h_flag := decide ((value &&& 0x0F) + 1 > 0x0F)
  let res := (value + 1) % 256
  let z_flag := decide (res = 0)
  let m := m.rset_zero_flag z_flag
  let m := m.rset_n_flag false
  let m := m.rset_h_flag h_flag
  let m ← m.mwrite_8 address res
  pure (m, 12)

/-- `LR35902::add_16`; the `h_flag` term reproduces the source expression
`(d_value & 0x000F) + (s_value + 0x000F)` including its `+` (not `&`) quirk,
with `u16` wrap-around made explicit. -/
def Machine.add_16 (m : Machine) (destination source : Register16) : Option (Machine × Nat) :=
  let d_value := m.get_16 destination
  let s_value := m.get_16 source
  let h_flag := decide ((((d_value &&& 0x000F) + ((s_value + 0x000F) % 65536)) % 65536) > 0x0F)
  let c_flag := decide (d_value + s_value > 0xFFFF)
  let res := (d_value + s_value) % 65536
  let m := m.rset_n_flag false
  let m := m.rset_h_flag h_flag
  let m := m.rset_carry_flag c_flag
  some (m.set_16 destination res, 8)

/-- `LR35902::add_16_immediate` (opcode E8). -/
def Machine.add_16_immediate (m : Machine) (destination : Register16) :
    Option (Machine × Nat) := do
  let (v, m) ← m.pc_next_8
  let d_value := m.get_16 destination
  let value : Int := toI8 v
  let h_flag := decide ((d_value &&& 0x000F) + (v &&& 0x0F) > 0x0F)
  let c_flag := decide (¬ (0 ≤ (d_value : Int) + value ∧ (d_value : Int) + value ≤ 0xFFFF))
  let res := wrap16 ((d_value : Int) + value)
  let m := m.rset_flags false false h_flag c_flag
  let m := m.set_16 destination res
  pure (m, 16)

def Machine.inc_16 (m : Machine) (destination : Register16) : Option (Machine × Nat) :=
  let value := m.get_16 destination
  some (m.set_16 destination ((value + 1) % 65536), 8)

/-- `LR35902::_sub_8_inner`; parameters are `u8` (always < 256 here since all
byte sources are reduced `% 256`). -/
def Machine._sub_8_inner (m : Machine) (destination source carry : Nat) : Machine × Nat :=
  let h_flag := decide ((destination &&& 0x0F) < (source &&& 0x0F))
  let h_res := ((destination &&& 0x0F) + 256 - (source &&& 0x0F)) % 256
  let h_flag := h_flag || decide (h_res < carry)
  let c_flag := decide (destination < source)
  let res := (destination % 256 + 256 - source % 256) % 256
  let c_flag := c_flag || decide (res < carry)
  let res := (res + 256 - carry % 256) % 256
  let z_flag := decide (res = 0)
  (m.rset_flags z_flag true h_flag c_flag, res)

def Machine.sub_8 (m : Machine) (source : Register8) : Option (Machine × Nat) :=
  let value := m.get_8 source
  let a_value := m.get_8 .A
  let (m, res) := m._sub_8_inner a_value value 0
  some (m.set_8 .A res, 4)

def Machine.sub_8_from (m : Machine) (source : Register16) : Option (Machine × Nat) := do
  let address := m.get_16 source
  let value ← m.mread_8 address
  let a_value := m.get_8 .A
  let (m, res) := m._sub_8_inner a_value value 0
  pure (m.set_8 .A res, 8)

def Machine.sub_8_immediate (m : Machine) : Option (Machine × Nat) := do
  let (value, m) ← m.pc_next_8
  let a_value := m.get_8 .A
  let (m, res) := m._sub_8_inner a_value value 0
  pure (m.set_8 .A res, 8)

/-- `LR35902::sub_carry_8` — note the source calls `_add_8_inner` here. -/
def Machine.sub_carry_8 (m : Machine) (source : Register8) : Option (Machine × Nat) :=
  let value := m.get_8 source
  let a_value := m.get_8 .A
  let carry := if m.registers.get_carry_flag then 1 else 0
  let (m, res) := m._add_8_inner a_value value carry
  some (m.set_8 .A res, 4)

def Machine.sub_carry_8_from (m : Machine) (source : Register16) : Option (Machine × Nat) := do
  let address := m.get_16 source
  let value ← m.mread_8 address
  let a_value := m.get_8 .A
  let carry := if m.registers.get_carry_flag then 1 else 0
  let (m, res) := m._add_8_inner a_value value carry
  pure (m.set_8 .A res, 8)

def Machine.sub_carry_8_immediate (m : Machine) : Option (Machine × Nat) := do
  let (value, m) ← m.pc_next_8
  let a_value := m.get_8 .A
  let carry := if m.registers.get_carry_flag then 1 else 0
  let (m, res) := m._add_8_inner a_value value carry
  pure (m.set_8 .A res, 8)

/-- `LR35902::dec_8` — the source sets the N flag to `false` here. -/
def Machine.dec_8 (m : Machine) (destination : Register8) : Option (Machine × Nat) :=
  let value := m.get_8 destination
  let h_flag := decide ((value &&& 0x0F) = 0)
  let res := (value + 256 - 1) % 256
  let z_flag := decide (res = 0)
  let m := m.rset_zero_flag z_flag
  let m := m.rset_n_flag false
  let m := m.rset_h_flag h_flag
  some (m.set_8 destination res, 4)

/-- `LR35902::dec_8_at` — returns 8 T-cycles in the source. -/
def Machine.dec_8_at (m : Machine) (destination : Register16) : Option (Machine × Nat) := do
  let address := m.get_16 destination
  let value ← m.mread_8 address
  let h_flag := decide ((value &&& 0x0F) = 0)
  let res := (value + 256 - 1) % 256
  let z_flag := decide (res = 0)
  let m := m.rset_zero_flag z_flag
  let m := m.rset_n_flag false
  let m := m.rset_h_flag h_flag
  let m ← m.mwrite_8 address res
  pure (m, 8)

def Machine.dec_16 (m : Machine) (destination : Register16) : Option (Machine × Nat) :=
  let value := m.get_16 destination
  some (m.set_16 destination ((value + 65536 - 1) % 65536), 8)

def Machine._and_8_inner (m : Machine) (destination source : Nat) : Machine :=
  let res := destination &&& source
  let z_flag := decide (res = 0)
  let m := m.rset_flags z_flag false true false
  m.set_8 .A res

def Machine.and_8 (m : Machine) (source : Register8) : Option (Machine × Nat) :=
  some (m._and_8_inner (m.get_8 .A) (m.get_8 source), 4)

def Machine.and_8_from (m : Machine) (source : Register16) : Option (Machine × Nat) := do
  let value ← m.mread_8 (m.get_16 source)
  pure (m._and_8_inner (m.get_8 .A) value, 8)

def Machine.and_8_immediate (m : Machine) : Option (Machine × Nat) := do
  let (value, m) ← m.pc_next_8
  pure (m._and_8_inner (m.get_8 .A) value, 8)

def Machine._xor_8_inner (m : Machine) (destination source : Nat) : Machine :=
  let res := destination ^^^ source
  let z_flag := decide (res = 0)
  let m := m.rset_flags z_flag false false false
  m.set_8 .A res

def Machine.xor_8 (m : Machine) (source : Register8) : Option (Machine × Nat) :=
  some (m._xor_8_inner (m.get_8 .A) (m.get_8 source), 4)

def Machine.xor_8_from (m : Machine) (source : Register16) : Option (Machine × Nat) := do
  let value ← m.mread_8 (m.get_16 source)
  pure (m._xor_8_inner (m.get_8 .A) value, 8)

def Machine.xor_8_immediate (m : Machine) : Option (Machine × Nat) := do
  let (value, m) ← m.pc_next_8
  pure (m._xor_8_inner (m.get_8 .A) value, 8)

def Machine._or_8_inner (m : Machine) (destination source : Nat) : Machine :=
  let res := destination ||| source
  let z_flag := decide (res = 0)
  let m := m.rset_flags z_flag false false false
  m.set_8 .A res

def Machine.or_8 (m : Machine) (source : Register8) : Option (Machine × Nat) :=
  some (m._or_8_inner (m.get_8 .A) (m.get_8 source), 4)

def Machine.or_8_from (m : Machine) (source : Register16) : Option (Machine × Nat) := do
  let value ← m.mread_8 (m.get_16 source)
  pure (m._or_8_inner (m.get_8 .A) value, 8)

def Machine.or_8_immediate (m : Machine) : Option (Machine × Nat) := do
  let (value, m) ← m.pc_next_8
  pure (m._or_8_inner (m.get_8 .A) value, 8)

def Machine.cp_8 (m : Machine) (source : Register8) : Option (Machine × Nat) :=
  let value := m.get_8 source
  let a_value := m.get_8 .A
  let (m, _res) := m._sub_8_inner a_value value 0
  some (m, 4)

def Machine.cp_8_from (m : Machine) (source : Register16) : Option (Machine × Nat) := do
  let value ← m.mread_8 (m.get_16 source)
  let a_value := m.get_8 .A
  let (m, _res) := m._sub_8_inner a_value value 0
  pure (m, 8)

def Machine.cp_8_immediate (m : Machine) : Option (Machine × Nat) := do
  let (value, m) ← m.pc_next_8
  let a_value := m.get_8 .A
  let (m, _res) := m._sub_8_inner a_value value 0
  pure (m, 8)

/-- `LR35902::set_carry_flag` (the SCF instruction, opcode 37). -/
def Machine.set_carry_flag (m : Machine) : Option (Machine × Nat) :=
  let m := m.rset_n_flag false
  let m := m.rset_h_flag false
  let m := m.rset_carry_flag true
  some (m, 4)

def Machine.complement_carry_flag (m : Machine) : Option (Machine × Nat) :=
  let m := m.rset_n_flag false
  let m := m.rset_h_flag false
  let carry := m.registers.get_carry_flag
  some (m.rset_carry_flag (!carry), 4)

def Machine.complement (m : Machine) : Option (Machine × Nat) :=
  let value := m.get_8 .A
  let m := m.set_8 .A (bnot8 value)
  let m := m.rset_n_flag true
  let m := m.rset_h_flag true
  some (m, 4)

def Machine.decimal_adjust (m : Machine) : Option (Machine × Nat) :=
  let value := m.get_8 .A
  let h_flag := m.registers.get_h_flag
  let c_flag := m.registers.get_carry_flag
  let n_flag := m.registers.get_n_flag
  let offset := if (!n_flag && decide (value &&& 0x0F > 0x09)) || h_flag then (0x06 : Nat) else 0
  let carrycond := (!n_flag && decide (value > 0x99)) || c_flag
  let offset := if carrycond then offset ||| 0x60 else offset
  let carry := carrycond
  let result := if n_flag then (value + 256 - offset) % 256 else (value + offset) % 256
  let m := m.rset_zero_flag (decide (result = 0))
  let m := m.rset_h_flag false
  let m := m.rset_carry_flag carry
  some (m.set_8 .A result, 4)

/- Control flow -/

def Machine.jump (m : Machine) (source : Register16) : Option (Machine × Nat) :=
  some (m.set_16 .PC (m.get_16 source), 4)

def Machine.jump_if_immediate_16 (m : Machine) (condition : Bool) : Option (Machine × Nat) := do
  let (value, m) ← m.pc_next_16
  if !condition then pure (m, 12)
  else pure (m.set_16 .PC value, 16)

def Machine.jump_if_immediate_8 (m : Machine) (condition : Bool) : Option (Machine × Nat) := do
  let (v, m) ← m.pc_next_8
  if !condition then pure (m, 8)
  else
    let pc := m.get_16 .PC
    let pc := wrap16 ((pc : Int) + toI8 v)
    pure (m.set_16 .PC pc, 12)

def Machine.call (m : Machine) (condition : Bool) : Option (Machine × Nat) := do
  let (address, m) ← m.pc_next_16
  if !condition then pure (m, 12)
  else do
    let (m, _) ← m.push .PC
    pure (m.set_16 .PC address, 24)

def Machine.call_vec (m : Machine) (address : Nat) : Option (Machine × Nat) := do
  let (m, _) ← m.push .PC
  pure (m.set_16 .PC address, 16)

def Machine.ret (m : Machine) : Option (Machine × Nat) := do
  let (m, _) ← m.pop .PC
  pure (m, 16)

def Machine.ret_if (m : Machine) (condition : Bool) : Option (Machine × Nat) :=
  if !condition then some (m, 8)
  else do
    let (m, _) ← m.pop .PC
    pure (m, 20)

def Machine.ret_interrupt (m : Machine) : Option (Machine × Nat) := do
  let m := { m with ime := true }
  let (m, _) ← m.pop .PC
  pure (m, 16)

/- Miscellaneous instructions -/

def Machine.stop (m : Machine) : Option (Machine × Nat) := do
  let (_, m) ← m.pc_next_8
  pure (m, 4)

def Machine.disable_interrupts (m : Machine) : Option (Machine × Nat) :=
  some ({ m with ime := false }, 4)

def Machine.enable_interrupts (m : Machine) : Option (Machine × Nat) :=
  some ({ m with ime := true }, 4)

def Machine.halt (m : Machine) : Option (Machine × Nat) :=
  some ({ m with halted := true }, 4)

/- Bit shift instructions -/

def Machine.rotate_left_accumulator (m : Machine) (with_carry : Bool) : Option (Machine × Nat) :=
  let value := m.get_8 .A
  let carry := m.registers.get_carry_flag
  let r_carry := decide (value &&& 0x80 ≠ 0)
  let value := ((value <<< 1) ||| (value >>> 7)) % 256
  let value := if with_carry then (value &&& bnot8 1) ||| (if carry then 1 else 0) else value
  let m := m.set_8 .A value
  some (m.rset_flags false false false r_carry, 4)

def Machine.rotate_right_accumulator (m : Machine) (with_carry : Bool) : Option (Machine × Nat) :=
  let value := m.get_8 .A
  let carry := m.registers.get_carry_flag
  let r_carry := decide (value &&& 0x01 ≠ 0)
  let value := (value >>> 1) ||| ((value <<< 7) % 256)
  let value :=
    if with_carry then (value &&& bnot8 (1 <<< 7)) ||| ((if carry then 1 else 0) <<< 7) else value
  let m := m.set_8 .A value
  some (m.rset_flags false false false r_carry, 4)

/- Prefix operations -/

def Machine._rotate_left_inner (m : Machine) (destination : Nat) (with_carry : Bool) :
    Machine × Nat :=
  let carry := m.registers.get_carry_flag
  let r_carry := decide (destination &&& 0x80 ≠ 0)
  let value := ((destination <<< 1) ||| (destination >>> 7)) % 256
  let value := if with_carry then (value &&& bnot8 1) ||| (if carry then 1 else 0) else value
  (m.rset_flags (decide (value = 0)) false false r_carry, value)

def Machine.rotate_left (m : Machine) (destination : Register8) : Option (Machine × Nat) :=
  let value := m.get_8 destination
  let (m, result) := m._rotate_left_inner value false
  some (m.set_8 destination result, 8)

def Machine.rotate_left_at (m : Machine) (destination : Register16) : Option (Machine × Nat) := do
  let address := m.get_16 destination
  let value ← m.mread_8 address
  let (m, result) := m._rotate_left_inner value false
  let m ← m.mwrite_8 address result
  pure (m, 16)

def Machine.rotate_left_carry (m : Machine) (destination : Register8) : Option (Machine × Nat) :=
  let value := m.get_8 destination
  let (m, result) := m._rotate_left_inner value true
  some (m.set_8 destination result, 8)

def Machine.rotate_left_carry_at (m : Machine) (destination : Register16) :
    Option (Machine × Nat) := do
  let address := m.get_16 destination
  let value ← m.mread_8 address
  let (m, result) := m._rotate_left_inner value true
  let m ← m.mwrite_8 address result
  pure (m, 16)

def Machine._rotate_right_inner (m : Machine) (destination : Nat) (with_carry : Bool) :
    Machine × Nat :=
  let carry := m.registers.get_carry_flag
  let r_carry := decide (destination &&& 0x01 ≠ 0)
  let value := (destination >>> 1) ||| ((destination <<< 7) % 256)
  let value :=
    if with_carry then (value &&& bnot8 (1 <<< 7)) ||| ((if carry then 1 else 0) <<< 7) else value
  (m.rset_flags (decide (value = 0)) false false r_carry, value)

def Machine.rotate_right (m : Machine) (destination : Register8) : Option (Machine × Nat) :=
  let value := m.get_8 destination
  let (m, result) := m._rotate_right_inner value false
  some (m.set_8 destination result, 8)

def Machine.rotate_right_at (m : Machine) (destination : Register16) : Option (Machine × Nat) := do
  let address := m.get_16 destination
  let value ← m.mread_8 address
  let (m, result) := m._rotate_right_inner value false
  let m ← m.mwrite_8 address result
  pure (m, 16)

def Machine.rotate_right_carry (m : Machine) (destination : Register8) : Option (Machine × Nat) :=
  let value := m.get_8 destination
  let (m, result) := m._rotate_right_inner value true
  some (m.set_8 destination result, 8)

def Machine.rotate_right_carry_at (m : Machine) (destination : Register16) :
    Option (Machine × Nat) := do
  let address := m.get_16 destination
  let value ← m.mread_8 address
  let (m, result) := m._rotate_right_inner value true
  let m ← m.mwrite_8 address result
  pure (m, 16)

def Machine.shift_left (m : Machine) (destination : Register8) : Option (Machine × Nat) :=
  let value := m.get_8 destination
  let carry := decide (value &&& 0x80 ≠ 0)
  let result := (value <<< 1) % 256
  let m := m.set_8 destination result
  some (m.rset_flags (decide (result = 0)) false false carry, 8)

def Machine.shift_left_at (m : Machine) (destination : Register16) : Option (Machine × Nat) := do
  let address := m.get_16 destination
  let value ← m.mread_8 address
  let carry := decide (value &&& 0x80 ≠ 0)
  let result := (value <<< 1) % 256
  let m ← m.mwrite_8 address result
  pure (m.rset_flags (decide (result = 0)) false false carry, 16)

def Machine.shift_right (m : Machine) (destination : Register8) : Option (Machine × Nat) :=
  let value := m.get_8 destination
  let carry := decide (value &&& 0x01 ≠ 0)
  let result := ((value >>> 1) &&& bnot8 (1 <<< 7)) ||| (value &&& 0x80)
  let m := m.set_8 destination result
  some (m.rset_flags (decide (result = 0)) false false carry, 8)

def Machine.shift_right_at (m : Machine) (destination : Register16) : Option (Machine × Nat) := do
  let address := m.get_16 destination
  let value ← m.mread_8 address
  let carry := decide (value &&& 0x01 ≠ 0)
  let result := ((value >>> 1) &&& bnot8 (1 <<< 7)) ||| (value &&& 0x80)
  let m ← m.mwrite_8 address result
  pure (m.rset_flags (decide (result = 0)) false false carry, 16)

def Machine.swap (m : Machine) (destination : Register8) : Option (Machine × Nat) :=
  let value := m.get_8 destination
  let result := ((value <<< 4) % 256) ||| (value >>> 4)
  let m := m.set_8 destination result
  some (m.rset_flags (decide (result = 0)) false false false, 8)

def Machine.swap_at (m : Machine) (destination : Register16) : Option (Machine × Nat) := do
  let address := m.get_16 destination
  let value ← m.mread_8 address
  let result := ((value <<< 4) % 256) ||| (value >>> 4)
  let m ← m.mwrite_8 address result
  pure (m.rset_flags (decide (result = 0)) false false false, 16)

def Machine.shift_right_logic (m : Machine) (destination : Register8) : Option (Machine × Nat) :=
  let value := m.get_8 destination
  let carry := decide (value &&& 0x01 ≠ 0)
  let result := value >>> 1
  let m := m.set_8 destination result
  some (m.rset_flags (decide (result = 0)) false false carry, 8)

def Machine.shift_right_logic_at (m : Machine) (destination : Register16) :
    Option (Machine × Nat) := do
  let address := m.get_16 destination
  let value ← m.mread_8 address
  let carry := decide (value &&& 0x01 ≠ 0)
  let result := value >>> 1
  let m ← m.mwrite_8 address result
  pure (m.rset_flags (decide (result = 0)) false false carry, 16)

/-- `LR35902::bit` — sets the Z flag to `result`, the tested bit itself. -/
def Machine.bit (m : Machine) (n : Nat) (source : Register8) : Option (Machine × Nat) :=
  let value := m.get_8 source
  let result := decide ((value >>> n) &&& 0x01 ≠ 0)
  let m := m.rset_zero_flag result
  let m := m.rset_n_flag false
  let m := m.rset_h_flag true
  some (m, 8)

def Machine.bit_at (m : Machine) (n : Nat) (source : Register16) : Option (Machine × Nat) := do
  let address := m.get_16 source
  let value ← m.mread_8 address
  let result := decide ((value >>> n) &&& 0x01 ≠ 0)
  let m := m.rset_zero_flag result
  let m := m.rset_n_flag false
  let m := m.rset_h_flag true
  pure (m, 12)

def Machine.reset_bit (m : Machine) (n : Nat) (source : Register8) : Option (Machine × Nat) :=
  let value := m.get_8 source
  let result := value &&& bnot8 (1 <<< n)
  some (m.set_8 source result, 8)

def Machine.reset_bit_at (m : Machine) (n : Nat) (source : Register16) :
    Option (Machine × Nat) := do
  let address := m.get_16 source
  let value ← m.mread_8 address
  let result := value &&& bnot8 (1 <<< n)
  let m ← m.mwrite_8 address result
  pure (m, 16)

def Machine.set_bit (m : Machine) (n : Nat) (source : Register8) : Option (Machine × Nat) :=
  let value := m.get_8 source
  let result := value ||| (1 <<< n)
  some (m.set_8 source result, 8)

def Machine.set_bit_at (m : Machine) (n : Nat) (source : Register16) :
    Option (Machine × Nat) := do
  let address := m.get_16 source
  let value ← m.mread_8 address
  let result := value ||| (1 <<< n)
  let m ← m.mwrite_8 address result
  pure (m, 16)

/-- `LR35902::prefix_cb`. -/
def Machine.prefix_cb (m : Machine) : Option (Machine × Nat) := do
  let (opcode, m) ← m.pc_next_8
  match opcode with
  | 0x00 => m.rotate_left .B
  | 0x01 => m.rotate_left .C
  | 0x02 => m.rotate_left .D
  | 0x03 => m.rotate_left .E
  | 0x04 => m.rotate_left .H
  | 0x05 => m.rotate_left .L
  | 0x06 => m.rotate_left_at .HL
  | 0x07 => m.rotate_left .A
  | 0x08 => m.rotate_right .B
  | 0x09 => m.rotate_right .C
  | 0x0A => m.rotate_right .D
  | 0x0B => m.rotate_right .E
  | 0x0C => m.rotate_right .H
  | 0x0D => m.rotate_right .L
  | 0x0E => m.rotate_right_at .HL
  | 0x0F => m.rotate_right .A
  | 0x10 => m.rotate_left_carry .B
  | 0x11 => m.rotate_left_carry .C
  | 0x12 => m.rotate_left_carry .D
  | 0x13 => m.rotate_left_carry .E
  | 0x14 => m.rotate_left_carry .H
  | 0x15 => m.rotate_left_carry .L
  | 0x16 => m.rotate_left_carry_at .HL
  | 0x17 => m.rotate_left_carry .A
  | 0x18 => m.rotate_right_carry .B
  | 0x19 => m.rotate_right_carry .C
  | 0x1A => m.rotate_right_carry .D
  | 0x1B => m.rotate_right_carry .E
  | 0x1C => m.rotate_right_carry .H
  | 0x1D => m.rotate_right_carry .L
  | 0x1E => m.rotate_right_carry_at .HL
  | 0x1F => m.rotate_right_carry .A
  | 0x20 => m.shift_left .B
  | 0x21 => m.shift_left .C
  | 0x22 => m.shift_left .D
  | 0x23 => m.shift_left .E
  | 0x24 => m.shift_left .H
  | 0x25 => m.shift_left .L
  | 0x26 => m.shift_left_at .HL
  | 0x27 => m.shift_left .A
  | 0x28 => m.shift_right .B
  | 0x29 => m.shift_right .C
  | 0x2A => m.shift_right .D
  | 0x2B => m.shift_right .E
  | 0x2C => m.shift_right .H
  | 0x2D => m.shift_right .L
  | 0x2E => m.shift_right_at .HL
  | 0x2F => m.shift_right .A
  | 0x30 => m.swap .B
  | 0x31 => m.swap .C
  | 0x32 => m.swap .D
  | 0x33 => m.swap .E
  | 0x34 => m.swap .H
  | 0x35 => m.swap .L
  | 0x36 => m.swap_at .HL
  | 0x37 => m.swap .A
  | 0x38 => m.shift_right_logic .B
  | 0x39 => m.shift_right_logic .C
  | 0x3A => m.shift_right_logic .D
  | 0x3B => m.shift_right_logic .E
  | 0x3C => m.shift_right_logic .H
  | 0x3D => m.shift_right_logic .L
  | 0x3E => m.shift_right_logic_at .HL
  | 0x3F => m.shift_right_logic .A
  | 0x40 => m.bit 0 .B
  | 0x41 => m.bit 0 .C
  | 0x42 => m.bit 0 .D
  | 0x43 => m.bit 0 .E
  | 0x44 => m.bit 0 .H
  | 0x45 => m.bit 0 .L
  | 0x46 => m.bit_at 0 .HL
  | 0x47 => m.bit 0 .A
  | 0x48 => m.bit 1 .B
  | 0x49 => m.bit 1 .C
  | 0x4A => m.bit 1 .D
  | 0x4B => m.bit 1 .E
  | 0x4C => m.bit 1 .H
  | 0x4D => m.bit 1 .L
  | 0x4E => m.bit_at 1 .HL
  | 0x4F => m.bit 1 .A
  | 0x50 => m.bit 2 .B
  | 0x51 => m.bit 2 .C
  | 0x52 => m.bit 2 .D
  | 0x53 => m.bit 2 .E
  | 0x54 => m.bit 2 .H
  | 0x55 => m.bit 2 .L
  | 0x56 => m.bit_at 2 .HL
  | 0x57 => m.bit 2 .A
  | 0x58 => m.bit 3 .B
  | 0x59 => m.bit 3 .C
  | 0x5A => m.bit 3 .D
  | 0x5B => m.bit 3 .E
  | 0x5C => m.bit 3 .H
  | 0x5D => m.bit 3 .L
  | 0x5E => m.bit_at 3 .HL
  | 0x5F => m.bit 3 .A
  | 0x60 => m.bit 4 .B
  | 0x61 => m.bit 4 .C
  | 0x62 => m.bit 4 .D
  | 0x63 => m.bit 4 .E
  | 0x64 => m.bit 4 .H
  | 0x65 => m.bit 4 .L
  | 0x66 => m.bit_at 4 .HL
  | 0x67 => m.bit 4 .A
  | 0x68 => m.bit 5 .B
  | 0x69 => m.bit 5 .C
  | 0x6A => m.bit 5 .D
  | 0x6B => m.bit 5 .E
  | 0x6C => m.bit 5 .H
  | 0x6D => m.bit 5 .L
  | 0x6E => m.bit_at 5 .HL
  | 0x6F => m.bit 5 .A
  | 0x70 => m.bit 6 .B
  | 0x71 => m.bit 6 .C
  | 0x72 => m.bit 6 .D
  | 0x73 => m.bit 6 .E
  | 0x74 => m.bit 6 .H
  | 0x75 => m.bit 6 .L
  | 0x76 => m.bit_at 6 .HL
  | 0x77 => m.bit 6 .A
  | 0x78 => m.bit 7 .B
  | 0x79 => m.bit 7 .C
  | 0x7A => m.bit 7 .D
  | 0x7B => m.bit 7 .E
  | 0x7C => m.bit 7 .H
  | 0x7D => m.bit 7 .L
  | 0x7E => m.bit_at 7 .HL
  | 0x7F => m.bit 7 .A
  | 0x80 => m.reset_bit 0 .B
  | 0x81 => m.reset_bit 0 .C
  | 0x82 => m.reset_bit 0 .D
  | 0x83 => m.reset_bit 0 .E
  | 0x84 => m.reset_bit 0 .H
  | 0x85 => m.reset_bit 0 .L
  | 0x86 => m.reset_bit_at 0 .HL
  | 0x87 => m.reset_bit 0 .A
  | 0x88 => m.reset_bit 1 .B
  | 0x89 => m.reset_bit 1 .C
  | 0x8A => m.reset_bit 1 .D
  | 0x8B => m.reset_bit 1 .E
  | 0x8C => m.reset_bit 1 .H
  | 0x8D => m.reset_bit 1 .L
  | 0x8E => m.reset_bit_at 1 .HL
  | 0x8F => m.reset_bit 1 .A
  | 0x90 => m.reset_bit 2 .B
  | 0x91 => m.reset_bit 2 .C
  | 0x92 => m.reset_bit 2 .D
  | 0x93 => m.reset_bit 2 .E
  | 0x94 => m.reset_bit 2 .H
  | 0x95 => m.reset_bit 2 .L
  | 0x96 => m.reset_bit_at 2 .HL
  | 0x97 => m.reset_bit 2 .A
  | 0x98 => m.reset_bit 3 .B
  | 0x99 => m.reset_bit 3 .C
  | 0x9A => m.reset_bit 3 .D
  | 0x9B => m.reset_bit 3 .E
  | 0x9C => m.reset_bit 3 .H
  | 0x9D => m.reset_bit 3 .L
  | 0x9E => m.reset_bit_at 3 .HL
  | 0x9F => m.reset_bit 3 .A
  | 0xA0 => m.reset_bit 4 .B
  | 0xA1 => m.reset_bit 4 .C
  | 0xA2 => m.reset_bit 4 .D
  | 0xA3 => m.reset_bit 4 .E
  | 0xA4 => m.reset_bit 4 .H
  | 0xA5 => m.reset_bit 4 .L
  | 0xA6 => m.reset_bit_at 4 .HL
  | 0xA7 => m.reset_bit 4 .A
  | 0xA8 => m.reset_bit 5 .B
  | 0xA9 => m.reset_bit 5 .C
  | 0xAA => m.reset_bit 5 .D
  | 0xAB => m.reset_bit 5 .E
  | 0xAC => m.reset_bit 5 .H
  | 0xAD => m.reset_bit 5 .L
  | 0xAE => m.reset_bit_at 5 .HL
  | 0xAF => m.reset_bit 5 .A
  | 0xB0 => m.reset_bit 6 .B
  | 0xB1 => m.reset_bit 6 .C
  | 0xB2 => m.reset_bit 6 .D
  | 0xB3 => m.reset_bit 6 .E
  | 0xB4 => m.reset_bit 6 .H
  | 0xB5 => m.reset_bit 6 .L
  | 0xB6 => m.reset_bit_at 6 .HL
  | 0xB7 => m.reset_bit 6 .A
  | 0xB8 => m.reset_bit 7 .B
  | 0xB9 => m.reset_bit 7 .C
  | 0xBA => m.reset_bit 7 .D
  | 0xBB => m.reset_bit 7 .E
  | 0xBC => m.reset_bit 7 .H
  | 0xBD => m.reset_bit 7 .L
  | 0xBE => m.reset_bit_at 7 .HL
  | 0xBF => m.reset_bit 7 .A
  | 0xC0 => m.set_bit 0 .B
  | 0xC1 => m.set_bit 0 .C
  | 0xC2 => m.set_bit 0 .D
  | 0xC3 => m.set_bit 0 .E
  | 0xC4 => m.set_bit 0 .H
  | 0xC5 => m.set_bit 0 .L
  | 0xC6 => m.set_bit_at 0 .HL
  | 0xC7 => m.set_bit 0 .A
  | 0xC8 => m.set_bit 1 .B
  | 0xC9 => m.set_bit 1 .C
  | 0xCA => m.set_bit 1 .D
  | 0xCB => m.set_bit 1 .E
  | 0xCC => m.set_bit 1 .H
  | 0xCD => m.set_bit 1 .L
  | 0xCE => m.set_bit_at 1 .HL
  | 0xCF => m.set_bit 1 .A
  | 0xD0 => m.set_bit 2 .B
  | 0xD1 => m.set_bit 2 .C
  | 0xD2 => m.set_bit 2 .D
  | 0xD3 => m.set_bit 2 .E
  | 0xD4 => m.set_bit 2 .H
  | 0xD5 => m.set_bit 2 .L
  | 0xD6 => m.set_bit_at 2 .HL
  | 0xD7 => m.set_bit 2 .A
  | 0xD8 => m.set_bit 3 .B
  | 0xD9 => m.set_bit 3 .C
  | 0xDA => m.set_bit 3 .D
  | 0xDB => m.set_bit 3 .E
  | 0xDC => m.set_bit 3 .H
  | 0xDD => m.set_bit 3 .L
  | 0xDE => m.set_bit_at 3 .HL
  | 0xDF => m.set_bit 3 .A
  | 0xE0 => m.set_bit 4 .B
  | 0xE1 => m.set_bit 4 .C
  | 0xE2 => m.set_bit 4 .D
  | 0xE3 => m.set_bit 4 .E
  | 0xE4 => m.set_bit 4 .H
  | 0xE5 => m.set_bit 4 .L
  | 0xE6 => m.set_bit_at 4 .HL
  | 0xE7 => m.set_bit 4 .A
  | 0xE8 => m.set_bit 5 .B
  | 0xE9 => m.set_bit 5 .C
  | 0xEA => m.set_bit 5 .D
  | 0xEB => m.set_bit 5 .E
  | 0xEC => m.set_bit 5 .H
  | 0xED => m.set_bit 5 .L
  | 0xEE => m.set_bit_at 5 .HL
  | 0xEF => m.set_bit 5 .A
  | 0xF0 => m.set_bit 6 .B
  | 0xF1 => m.set_bit 6 .C
  | 0xF2 => m.set_bit 6 .D
  | 0xF3 => m.set_bit 6 .E
  | 0xF4 => m.set_bit 6 .H
  | 0xF5 => m.set_bit 6 .L
  | 0xF6 => m.set_bit_at 6 .HL
  | 0xF7 => m.set_bit 6 .A
  | 0xF8 => m.set_bit 7 .B
  | 0xF9 => m.set_bit 7 .C
  | 0xFA => m.set_bit 7 .D
  | 0xFB => m.set_bit 7 .E
  | 0xFC => m.set_bit 7 .H
  | 0xFD => m.set_bit 7 .L
  | 0xFE => m.set_bit_at 7 .HL
  | 0xFF => m.set_bit 7 .A
  | _ => none

/-- `LR35902::next_instruction`. The `unreachable!` opcodes are `none`. -/
def Machine.next_instruction (m : Machine) : Option (Machine × Nat) := do
  let (opcode, m) ← m.pc_next_8
  match opcode with
  | 0x00 => some (m, 4)
  | 0x01 => m.load_16_immediate .BC
  | 0x02 => m.load_8_at .BC .A
  | 0x03 => m.inc_16 .BC
  | 0x04 => m.inc_8 .B
  | 0x05 => m.dec_8 .B
  | 0x06 => m.load_8_immediate .B
  | 0x07 => m.rotate_left_accumulator false
  | 0x08 => m.load_16_at_immediate .SP
  | 0x09 => m.add_16 .HL .BC
  | 0x0A => m.load_8_from .A .BC
  | 0x0B => m.dec_16 .BC
  | 0x0C => m.inc_8 .C
  | 0x0D => m.dec_8 .C
  | 0x0E => m.load_8_immediate .C
  | 0x0F => m.rotate_right_accumulator false
  | 0x10 => m.stop
  | 0x11 => m.load_16_immediate .DE
  | 0x12 => m.load_8_at .DE .A
  | 0x13 => m.inc_16 .DE
  | 0x14 => m.inc_8 .D
  | 0x15 => m.dec_8 .D
  | 0x16 => m.load_8_immediate .D
  | 0x17 => m.rotate_left_accumulator true
  | 0x18 => m.jump_if_immediate_8 true
  | 0x19 => m.add_16 .HL .DE
  | 0x1A => m.load_8_from .A .DE
  | 0x1B => m.dec_16 .DE
  | 0x1C => m.inc_8 .E
  | 0x1D => m.dec_8 .E
  | 0x1E => m.load_8_immediate .E
  | 0x1F => m.rotate_right_accumulator true
  | 0x20 => m.jump_if_immediate_8 (!m.registers.get_zero_flag)
  | 0x21 => m.load_16_immediate .HL
  | 0x22 => m.load_8_at_increment .HL .A
  | 0x23 => m.inc_16 .HL
  | 0x24 => m.inc_8 .H
  | 0x25 => m.dec_8 .H
  | 0x26 => m.load_8_immediate .H
  | 0x27 => m.decimal_adjust
  | 0x28 => m.jump_if_immediate_8 m.registers.get_zero_flag
  | 0x29 => m.add_16 .HL .HL
  | 0x2A => m.load_8_from_increment .A .HL
  | 0x2B => m.dec_16 .HL
  | 0x2C => m.inc_8 .L
  | 0x2D => m.dec_8 .L
  | 0x2E => m.load_8_immediate .L
  | 0x2F => m.complement
  | 0x30 => m.jump_if_immediate_8 (!m.registers.get_carry_flag)
  | 0x31 => m.load_16_immediate .SP
  | 0x32 => m.load_8_at_decrement .HL .A
  | 0x33 => m.inc_16 .SP
  | 0x34 => m.inc_8_at .HL
  | 0x35 => m.dec_8_at .HL
  | 0x36 => m.load_8_immediate_at .HL
  | 0x37 => m.set_carry_flag
  | 0x38 => m.jump_if_immediate_8 m.registers.get_carry_flag
  | 0x39 => m.add_16 .HL .SP
  | 0x3A => m.load_8_from_decrement .A .HL
  | 0x3B => m.dec_16 .SP
  | 0x3C => m.inc_8 .A
  | 0x3D => m.dec_8 .A
  | 0x3E => m.load_8_immediate .A
  | 0x3F => m.complement_carry_flag
  | 0x40 => m.load_8 .B .B
  | 0x41 => m.load_8 .B .C
  | 0x42 => m.load_8 .B .D
  | 0x43 => m.load_8 .B .E
  | 0x44 => m.load_8 .B .H
  | 0x45 => m.load_8 .B .L
  | 0x46 => m.load_8_from .B .HL
  | 0x47 => m.load_8 .B .A
  | 0x48 => m.load_8 .C .B
  | 0x49 => m.load_8 .C .C
  | 0x4A => m.load_8 .C .D
  | 0x4B => m.load_8 .C .E
  | 0x4C => m.load_8 .C .H
  | 0x4D => m.load_8 .C .L
  | 0x4E => m.load_8_from .C .HL
  | 0x4F => m.load_8 .C .A
  | 0x50 => m.load_8 .D .B
  | 0x51 => m.load_8 .D .C
  | 0x52 => m.load_8 .D .D
  | 0x53 => m.load_8 .D .E
  | 0x54 => m.load_8 .D .H
  | 0x55 => m.load_8 .D .L
  | 0x56 => m.load_8_from .D .HL
  | 0x57 => m.load_8 .D .A
  | 0x58 => m.load_8 .E .B
  | 0x59 => m.load_8 .E .C
  | 0x5A => m.load_8 .E .D
  | 0x5B => m.load_8 .E .E
  | 0x5C => m.load_8 .E .H
  | 0x5D => m.load_8 .E .L
  | 0x5E => m.load_8_from .E .HL
  | 0x5F => m.load_8 .E .A
  | 0x60 => m.load_8 .H .B
  | 0x61 => m.load_8 .H .C
  | 0x62 => m.load_8 .H .D
  | 0x63 => m.load_8 .H .E
  | 0x64 => m.load_8 .H .H
  | 0x65 => m.load_8 .H .L
  | 0x66 => m.load_8_from .H .HL
  | 0x67 => m.load_8 .H .A
  | 0x68 => m.load_8 .L .B
  | 0x69 => m.load_8 .L .C
  | 0x6A => m.load_8 .L .D
  | 0x6B => m.load_8 .L .E
  | 0x6C => m.load_8 .L .H
  | 0x6D => m.load_8 .L .L
  | 0x6E => m.load_8_from .L .HL
  | 0x6F => m.load_8 .L .A
  | 0x70 => m.load_8_at .HL .B
  | 0x71 => m.load_8_at .HL .C
  | 0x72 => m.load_8_at .HL .D
  | 0x73 => m.load_8_at .HL .E
  | 0x74 => m.load_8_at .HL .H
  | 0x75 => m.load_8_at .HL .L
  | 0x76 => m.halt
  | 0x77 => m.load_8_at .HL .A
  | 0x78 => m.load_8 .A .B
  | 0x79 => m.load_8 .A .C
  | 0x7A => m.load_8 .A .D
  | 0x7B => m.load_8 .A .E
  | 0x7C => m.load_8 .A .H
  | 0x7D => m.load_8 .A .L
  | 0x7E => m.load_8_from .A .HL
  | 0x7F => m.load_8 .A .A
  | 0x80 => m.add_8 .B
  | 0x81 => m.add_8 .C
  | 0x82 => m.add_8 .D
  | 0x83 => m.add_8 .E
  | 0x84 => m.add_8 .H
  | 0x85 => m.add_8 .L
  | 0x86 => m.add_8_from .HL
  | 0x87 => m.add_8 .A
  | 0x88 => m.add_carry_8 .B
  | 0x89 => m.add_carry_8 .C
  | 0x8A => m.add_carry_8 .D
  | 0x8B => m.add_carry_8 .E
  | 0x8C => m.add_carry_8 .H
  | 0x8D => m.add_carry_8 .L
  | 0x8E => m.add_carry_8_from .HL
  | 0x8F => m.add_carry_8 .A
  | 0x90 => m.sub_8 .B
  | 0x91 => m.sub_8 .C
  | 0x92 => m.sub_8 .D
  | 0x93 => m.sub_8 .E
  | 0x94 => m.sub_8 .H
  | 0x95 => m.sub_8 .L
  | 0x96 => m.sub_8_from .HL
  | 0x97 => m.sub_8 .A
  | 0x98 => m.sub_carry_8 .B
  | 0x99 => m.sub_carry_8 .C
  | 0x9A => m.sub_carry_8 .D
  | 0x9B => m.sub_carry_8 .E
  | 0x9C => m.sub_carry_8 .H
  | 0x9D => m.sub_carry_8 .L
  | 0x9E => m.sub_carry_8_from .HL
  | 0x9F => m.sub_carry_8 .A
  | 0xA0 => m.and_8 .B
  | 0xA1 => m.and_8 .C
  | 0xA2 => m.and_8 .D
  | 0xA3 => m.and_8 .E
  | 0xA4 => m.and_8 .H
  | 0xA5 => m.and_8 .L
  | 0xA6 => m.and_8_from .HL
  | 0xA7 => m.and_8 .A
  | 0xA8 => m.xor_8 .B
  | 0xA9 => m.xor_8 .C
  | 0xAA => m.xor_8 .D
  | 0xAB => m.xor_8 .E
  | 0xAC => m.xor_8 .H
  | 0xAD => m.xor_8 .L
  | 0xAE => m.xor_8_from .HL
  | 0xAF => m.xor_8 .A
  | 0xB0 => m.or_8 .B
  | 0xB1 => m.or_8 .C
  | 0xB2 => m.or_8 .D
  | 0xB3 => m.or_8 .E
  | 0xB4 => m.or_8 .H
  | 0xB5 => m.or_8 .L
  | 0xB6 => m.or_8_from .HL
  | 0xB7 => m.or_8 .A
  | 0xB8 => m.cp_8 .B
  | 0xB9 => m.cp_8 .C
  | 0xBA => m.cp_8 .D
  | 0xBB => m.cp_8 .E
  | 0xBC => m.cp_8 .H
  | 0xBD => m.cp_8 .L
  | 0xBE => m.cp_8_from .HL
  | 0xBF => m.cp_8 .A
  | 0xC0 => m.ret_if (!m.registers.get_zero_flag)
  | 0xC1 => m.pop .BC
  | 0xC2 => m.jump_if_immediate_16 (!m.registers.get_zero_flag)
  | 0xC3 => m.jump_if_immediate_16 true
  | 0xC4 => m.call (!m.registers.get_zero_flag)
  | 0xC5 => m.push .BC
  | 0xC6 => m.add_8_immediate
  | 0xC7 => m.call_vec 0x00
  | 0xC8 => m.ret_if m.registers.get_zero_flag
  | 0xC9 => m.ret
  | 0xCA => m.jump_if_immediate_16 m.registers.get_zero_flag
  | 0xCB => m.prefix_cb
  | 0xCC => m.call m.registers.get_zero_flag
  | 0xCD => m.call true
  | 0xCE => m.add_carry_8_immediate
  | 0xCF => m.call_vec 0x08
  | 0xD0 => m.ret_if (!m.registers.get_carry_flag)
  | 0xD1 => m.pop .DE
  | 0xD2 => m.jump_if_immediate_16 (!m.registers.get_carry_flag)
  | 0xD3 => none
  | 0xD4 => m.call (!m.registers.get_carry_flag)
  | 0xD5 => m.push .DE
  | 0xD6 => m.sub_8_immediate
  | 0xD7 => m.call_vec 0x10
  | 0xD8 => m.ret_if m.registers.get_carry_flag
  | 0xD9 => m.ret_interrupt
  | 0xDA => m.jump_if_immediate_16 m.registers.get_carry_flag
  | 0xDB => none
  | 0xDC => m.call m.registers.get_carry_flag
  | 0xDD => none
  | 0xDE => m.sub_carry_8_immediate
  | 0xDF => m.call_vec 0x18
  | 0xE0 => m.load_8_at_ioport_immediate .A
  | 0xE1 => m.pop .HL
  | 0xE2 => m.load_8_at_ioport .C .A
  | 0xE3 => none
  | 0xE4 => none
  | 0xE5 => m.push .HL
  | 0xE6 => m.and_8_immediate
  | 0xE7 => m.call_vec 0x20
  | 0xE8 => m.add_16_immediate .SP
  | 0xE9 => m.jump .HL
  | 0xEA => m.load_8_at_immediate .A
  | 0xEB => none
  | 0xEC => none
  | 0xED => none
  | 0xEE => m.xor_8_immediate
  | 0xEF => m.call_vec 0x28
  | 0xF0 => m.load_8_from_ioport_immediate .A
  | 0xF1 => m.pop .AF
  | 0xF2 => m.load_8_from_ioport .C .A
  | 0xF3 => m.disable_interrupts
  | 0xF4 => none
  | 0xF5 => m.push .AF
  | 0xF6 => m.or_8_immediate
  | 0xF7 => m.call_vec 0x30
  | 0xF8 => m.load_16_add_immediate .HL .SP
  | 0xF9 => m.load_16 .SP .HL
  | 0xFA => m.load_8_from_immediate .A
  | 0xFB => m.enable_interrupts
  | 0xFC => none
  | 0xFD => none
  | 0xFE => m.cp_8_immediate
  | 0xFF => m.call_vec 0x38
  | _ => none

/-- `LR35902::check_for_interrupt`.  Returns the machine and whether an
interrupt was serviced (`Some(())` in the source); `none` is a panic. -/
def Machine.check_for_interrupt (m : Machine) : Option (Machine × Bool) := do
  let interrupt_flag ← m.mmu.read_8 0xFF0F
  let interrupt_enable ← m.mmu.read_8 0xFFFF
  if interrupt_enable &&& VBLANKBIT ≠ 0 ∧ interrupt_flag &&& VBLANKBIT ≠ 0 then do
    let (m, _) ← m.call_vec 0x0040
    let m ← m.mwrite_8 0xFF0F (interrupt_flag &&& bnot8 VBLANKBIT)
    pure (m, true)
  else if interrupt_enable &&& LCDBIT ≠ 0 ∧ interrupt_flag &&& LCDBIT ≠ 0 then do
    let (m, _) ← m.call_vec 0x0048
    let m ← m.mwrite_8 0xFF0F (interrupt_flag &&& bnot8 LCDBIT)
    pure (m, true)
  else if interrupt_enable &&& TIMERBIT ≠ 0 ∧ interrupt_flag &&& TIMERBIT ≠ 0 then do
    let (m, _) ← m.call_vec 0x0050
    let m ← m.mwrite_8 0xFF0F (interrupt_flag &&& bnot8 TIMERBIT)
    pure (m, true)
  else if interrupt_enable &&& SERIALBIT ≠ 0 ∧ interrupt_flag &&& SERIALBIT ≠ 0 then do
    let (m, _) ← m.call_vec 0x0058
    let m ← m.mwrite_8 0xFF0F (interrupt_flag &&& bnot8 SERIALBIT)
    pure (m, true)
  else if interrupt_enable &&& JOYPADBIT ≠ 0 ∧ interrupt_flag &&& JOYPADBIT ≠ 0 then do
    let (m, _) ← m.call_vec 0x0060
    let m ← m.mwrite_8 0xFF0F (interrupt_flag &&& bnot8 JOYPADBIT)
    pure (m, true)
  else pure (m, false)

/-- `LR35902::step`. -/
def Machine.step (m : Machine) : Option (Machine × Nat) :=
  if m.ime then do
    let (m, serviced) ← m.check_for_interrupt
    if serviced then pure ({ m with ime := false, halted := false }, 20)
    else if m.halted then pure (m, 0)
    else m.next_instruction
  else if m.halted then some (m, 0)
  else m.next_instruction

/-!  ## Graphics (`graphics.rs`)

`eframe::Color32` is modelled as a packed RGB number. -/

def Color32.from_rgb (r g b : Nat) : Nat := (r <<< 16) ||| (g <<< 8) ||| b

def Color32.WHITE : Nat := Color32.from_rgb 255 255 255

structure ColorPalette where
  c0 : Nat
  c1 : Nat
  c2 : Nat
  c3 : Nat
deriving DecidableEq, Repr

def DEFAULT_PALETTE : ColorPalette :=
  { c0 := Color32.from_rgb 0xE0 0xF8 0xD0
    c1 := Color32.from_rgb 0x88 0xC0 0x70
    c2 := Color32.from_rgb 0x34 0x68 0x56
    c3 := Color32.from_rgb 0x08 0x18 0x20 }

/-- `Index<usize> for ColorPalette`; the `_` arm is `unreachable!` in the
source and indeed unreachable (indices are 2-bit colors). -/
def ColorPalette.idx (p : ColorPalette) : Nat → Nat
  | 0 => p.c0
  | 1 => p.c1
  | 2 => p.c2
  | 3 => p.c3
  | _ => 0

def ColorPalette.from_dmg_palette (palette : Nat) : ColorPalette :=
  { c0 := DEFAULT_PALETTE.idx ((palette >>> 0) &&& 0x03)
    c1 := DEFAULT_PALETTE.idx ((palette >>> 2) &&& 0x03)
    c2 := DEFAULT_PALETTE.idx ((palette >>> 4) &&& 0x03)
    c3 := DEFAULT_PALETTE.idx ((palette >>> 6) &&& 0x03) }

/-!  ## PPU (`ppu.rs`)

The `Sender<DmgMessage>` channel is modelled by the number of
`DmgMessage::Render` messages a step emits (the third component of `step`).
Slice indexing that can go out of bounds in Rust is `Option`-guarded. -/

inductive Mode | HBlank | VBlank | OAMSearch | PixelTransfer
deriving DecidableEq, Repr

/-- `mode as u8` (Rust enum discriminants in declaration order). -/
def Mode.toU8 : Mode → Nat
  | .HBlank => 0
  | .VBlank => 1
  | .OAMSearch => 2
  | .PixelTransfer => 3

def LCDC_HBLANK : Nat := 1 <<< 3
def LCDC_VBLANK : Nat := 1 <<< 4
def LCDC_OAM : Nat := 1 <<< 5
def LCDC_LYC : Nat := 1 <<< 6

structure Ppu where
  mmu : Mmu
  mode : Mode
  pixel_buffer : Nat → Nat
  line_to_draw : Nat

def Ppu.trigger_interrupts (p : Ppu) : Option Ppu := do
  let lcdc ← p.mmu.read_8 0xFF41
  let int_flag ← p.mmu.read_8 0xFF0F
  let int_enable ← p.mmu.read_8 0xFFFF
  let int_flag :=
    match p.mode with
    | .HBlank =>
        if lcdc &&& LCDC_HBLANK ≠ 0 ∧ int_enable &&& LCDBIT ≠ 0 then int_flag ||| LCDBIT
        else int_flag
    | .VBlank =>
        let int_flag :=
          if lcdc &&& LCDC_VBLANK ≠ 0 ∧ int_enable &&& LCDBIT ≠ 0 then int_flag ||| LCDBIT
          else int_flag
        if int_enable &&& VBLANKBIT ≠ 0 then int_flag ||| VBLANKBIT else int_flag
    | .OAMSearch =>
        if lcdc &&& LCDC_OAM ≠ 0 ∧ int_enable &&& LCDBIT ≠ 0 then int_flag ||| LCDBIT
        else int_flag
    | _ => int_flag
  let mm ← p.mmu.write_8 0xFF0F int_flag
  pure { p with mmu := mm }

def Ppu.set_mode (p : Ppu) (mode : Mode) : Option Ppu := do
  let p := { p with mode := mode }
  let stat ← p.mmu.read_8 0xFF41
  let stat := (stat &&& 0xFC) ||| mode.toU8
  let mm ← p.mmu.write_8 0xFF41 stat
  let p := { p with mmu := mm }
  p.trigger_interrupts

/-- The body of the `for i in 0..160` loop of `draw_bg_line`, iterated by
remaining fuel; `i` is the pixel index inside the line.  The `bg_data` slice
has length 0x400 and indexing it out of bounds is a panic (`none`); the
`tile_data` sub-slice bound `bg_tile * 16 + 16 ≤ 0x1000` always holds because
VRAM bytes are < 256. -/
def draw_bg_loop (mmu : Mmu) (tile_base line_y scx line : Nat) (palette : ColorPalette) :
    Nat → Nat → (Nat → Nat) → Option (Nat → Nat)
  | _, 0, buf => some buf
  | i, fuel + 1, buf =>
    let idx := (line_y / 8) * 32 + ((scx + i) / 8)
    if idx < 0x400 then
      let bg_tile := mmu.vram (0x1800 + idx)
      let tile_px_y := line_y % 8
      let tile_px_x := (scx + i) % 8
      let px_byte_a := mmu.vram (tile_base + bg_tile * 16 + tile_px_y * 2)
      let px_byte_b := mmu.vram (tile_base + bg_tile * 16 + tile_px_y * 2 + 1)
      let bit_a := (px_byte_a >>> (7 - tile_px_x)) &&& 0x01
      let bit_b := (px_byte_b >>> (7 - tile_px_x)) &&& 0x01
      let color := (bit_b <<< 1) ||| bit_a
      draw_bg_loop mmu tile_base line_y scx line palette (i + 1) fuel
        (updf buf (line * 160 + i) (palette.idx color))
    else none

/-- `PixelProcessingUnit::draw_bg_line`.  With LCDC bit 4 set the tile data
slice is `vram[0x0000..=0x0FFF]`, otherwise `vram[0x0800..=0x17FF]`; both are
indexed by the raw (unsigned) tile id. -/
def Ppu.draw_bg_line (p : Ppu) : Option Ppu := do
  let lcdc ← p.mmu.read_8 0xFF40
  let tile_base := if lcdc &&& 0b00010000 ≠ 0 then (0x0000 : Nat) else 0x0800
  let pal ← p.mmu.read_8 0xFF47
  let palette := ColorPalette.from_dmg_palette pal
  let scy ← p.mmu.read_8 0xFF42
  let scx ← p.mmu.read_8 0xFF43
  let line_y := scy + p.line_to_draw
  let buf ← draw_bg_loop p.mmu tile_base line_y scx p.line_to_draw palette 0 160 p.pixel_buffer
  pure { p with pixel_buffer := buf }

/-- `PixelProcessingUnit::draw_line`. -/
def Ppu.draw_line (p : Ppu) : Option (Ppu × Nat) := do
  let p ← p.draw_bg_line
  let p := { p with line_to_draw := p.line_to_draw + 1 }
  let mm ← p.mmu.write_8 0xFF44 p.line_to_draw
  let p := { p with mmu := mm }
  let int_flag ← p.mmu.read_8 0xFF0F
  let lcdc ← p.mmu.read_8 0xFF41
  let int_enable ← p.mmu.read_8 0xFFFF
  let ly ← p.mmu.read_8 0xFF44
  let lyc ← p.mmu.read_8 0xFF45
  let int_flag :=
    if ly = lyc ∧ lcdc &&& LCDC_LYC ≠ 0 ∧ int_enable &&& LCDBIT ≠ 0 then int_flag ||| LCDBIT
    else int_flag
  let mm ← p.mmu.write_8 0xFF0F int_flag
  pure ({ p with mmu := mm }, 172)

def Ppu.step_oam_search (p : Ppu) : Option (Ppu × Nat × Nat) := do
  let p ← p.set_mode .PixelTransfer
  pure (p, 80, 0)

/-- `PixelProcessingUnit::step_pixel_transfer`; the third component counts
`DmgMessage::Render` messages sent to the host. -/
def Ppu.step_pixel_transfer (p : Ppu) : Option (Ppu × Nat × Nat) := do
  let (p, ticks) ← p.draw_line
  let sends := if p.line_to_draw ≥ 144 then 1 else 0
  let p ← p.set_mode .HBlank
  pure (p, ticks, sends)

def Ppu.step_h_blank (p : Ppu) : Option (Ppu × Nat × Nat) := do
  let p ← if p.line_to_draw ≥ 144 then p.set_mode .VBlank else p.set_mode .OAMSearch
  pure (p, 204, 0)

def Ppu.step_v_blank (p : Ppu) : Option (Ppu × Nat × Nat) := do
  let p := { p with line_to_draw := p.line_to_draw + 1 }
  let p ← if p.line_to_draw > 153 then
      Ppu.set_mode { p with line_to_draw := 0 } .OAMSearch
    else pure p
  let mm ← p.mmu.write_8 0xFF44 (p.line_to_draw % 256)
  pure ({ p with mmu := mm }, 456, 0)

/-- `PixelProcessingUnit::step`: `(new state, T-cycles, render messages)`. -/
def Ppu.step (p : Ppu) : Option (Ppu × Nat × Nat) :=
  match p.mode with
  | .OAMSearch => p.step_oam_search
  | .PixelTransfer => p.step_pixel_transfer
  | .HBlank => p.step_h_blank
  | .VBlank => p.step_v_blank

/-- Iterate `Ppu.step` `n` times, summing T-cycles and render messages. -/
def Ppu.run : Nat → Ppu → Option (Ppu × Nat × Nat)
  | 0, p => some (p, 0, 0)
  | n + 1, p => do
      let (p1, t, s) ← p.step
      let (p2, tt, ss) ← p1.run n
      pure (p2, t + tt, s + ss)

/-!  ## Joypad (`joypad.rs`) -/

inductive SelectMode | Buttons | DirectionalPad | Other
deriving DecidableEq, Repr

inductive DmgButton | Up | Down | Left | Right | A | B | Start | Select
deriving DecidableEq, Repr

structure Joypad where
  buttons : Nat
  d_pad : Nat
  select_mode : SelectMode
deriving DecidableEq, Repr

def Joypad.new : Joypad := { buttons := 0xF, d_pad := 0xF, select_mode := .Other }

/-- The `clear` closure of `button_pressed` (`*target &= !(1u8 << n)`). -/
def clearBit8 (target n : Nat) : Nat := target &&& bnot8 (1 <<< n)

/-- The `set` closure of `button_released` (`*target |= 1u8 << n`). -/
def setBit8 (target n : Nat) : Nat := target ||| (1 <<< n)

def Joypad.button_pressed (j : Joypad) : DmgButton → Joypad
  | .Up => { j with d_pad := clearBit8 j.d_pad 2 }
  | .Down => { j with d_pad := clearBit8 j.d_pad 3 }
  | .Left => { j with d_pad := clearBit8 j.d_pad 1 }
  | .Right => { j with d_pad := clearBit8 j.d_pad 0 }
  | .A => { j with buttons := clearBit8 j.buttons 0 }
  | .B => { j with buttons := clearBit8 j.buttons 1 }
  | .Start => { j with buttons := clearBit8 j.buttons 3 }
  | .Select => { j with buttons := clearBit8 j.buttons 2 }

def Joypad.button_released (j : Joypad) : DmgButton → Joypad
  | .Up => { j with d_pad := setBit8 j.d_pad 2 }
  | .Down => { j with d_pad := setBit8 j.d_pad 3 }
  | .Left => { j with d_pad := setBit8 j.d_pad 1 }
  | .Right => { j with d_pad := setBit8 j.d_pad 0 }
  | .A => { j with buttons := setBit8 j.buttons 0 }
  | .B => { j with buttons := setBit8 j.buttons 1 }
  | .Start => { j with buttons := setBit8 j.buttons 3 }
  | .Select => { j with buttons := setBit8 j.buttons 2 }

/-- `Joypad::write`; the `unreachable!` arm (select value 0) is `none`. -/
def Joypad.write (j : Joypad) (value : Nat) : Option Joypad :=
  let value := (value >>> 4) &&& 0x03
  if value = 0x01 then some { j with select_mode := .DirectionalPad }
  else if value = 0x02 then some { j with select_mode := .Buttons }
  else if value = 0x03 then some { j with select_mode := .Other }
  else none

def Joypad.read (j : Joypad) : Nat :=
  match j.select_mode with
  | .Buttons => 0x20 ||| j.buttons
  | .DirectionalPad => 0x10 ||| j.d_pad
  | .Other => 0x3F

/-- Which 4-bit mask a button lives in (`true` = `d_pad`), per the
`button_pressed` match. -/
def DmgButton.in_d_pad : DmgButton → Bool
  | .Up | .Down | .Left | .Right => true
  | _ => false

/-- The bit index of a button inside its mask, per the `button_pressed` match. -/
def DmgButton.mask_index : DmgButton → Nat
  | .Up => 2
  | .Down => 3
  | .Left => 1
  | .Right => 0
  | .A => 0
  | .B => 1
  | .Start => 3
  | .Select => 2

/-!  ## Definitions taken from the specification text (for comparison with
the code).  These are *not* translations of the source. -/

/-- Modelled from the spec: the canonical DMG opcode-table T-cycle cost of
`DEC (HL)` (opcode 35). -/
def dmg_table_dec_hl_cost : Nat := 12

/-- Modelled from the spec: the number of bytes an OAM DMA transfer copies
(`160 bytes from value<<8 through value<<8 | 0x9F`). -/
def spec_dma_byte_count : Nat := 160

/-- Modelled from the spec: signed tile addressing — the VRAM address of the
first bitplane byte of row `row` of tile `index` when LCDC bit 4 is clear is
`0x9000 + (i8)index * 16 + row * 2`. -/
def spec_signed_tile_data_address (index row : Nat) : Int :=
  0x9000 + toI8 index * 16 + (row : Int) * 2

/-- Modelled from the spec: the MBC1 selected ROM bank after writing `value`
to 2000–3FFF — low 5 bits, renormalised to 1 when zero, reduced modulo the
cartridge's ROM bank count. -/
def spec_mbc1_selected_bank (value bank_count : Nat) : Nat :=
  let v := value &&& 0x1F
  let v := if v = 0 then 1 else v
  v % bank_count

/-!  ## Statement-side helper definitions -/

/-- The 4-bit mask a button's bit lives in (see `Joypad::button_pressed`). -/
def Joypad.maskOf (j : Joypad) (b : DmgButton) : Nat :=
  if b.in_d_pad then j.d_pad else j.buttons

/-- The other 4-bit mask, which operations on button `b` must not touch. -/
def Joypad.otherMaskOf (j : Joypad) (b : DmgButton) : Nat :=
  if b.in_d_pad then j.buttons else j.d_pad

/-- The mode/line/T-cycle/render-message skeleton of the PPU state machine,
extracted from the four `step_*` functions. -/
def skelStep : Mode × Nat → (Mode × Nat) × Nat × Nat
  | (.OAMSearch, l) => ((.PixelTransfer, l), 80, 0)
  | (.PixelTransfer, l) => ((.HBlank, l + 1), 172, if l + 1 ≥ 144 then 1 else 0)
  | (.HBlank, l) => ((if l ≥ 144 then .VBlank else .OAMSearch, l), 204, 0)
  | (.VBlank, l) => (if l + 1 > 153 then (.OAMSearch, 0) else (.VBlank, l + 1), 456, 0)

def skelRun : Nat → Mode × Nat → (Mode × Nat) × Nat × Nat
  | 0, s => (s, 0, 0)
  | n + 1, s =>
    let r1 := skelStep s
    let r2 := skelRun n r1.1
    (r2.1, r1.2.1 + r2.2.1, r1.2.2 + r2.2.2)

/-- Along the next `n` skeleton steps, every PixelTransfer state has its line
in range, so the background draw cannot index the BG map out of bounds. -/
def skelSafe : Nat → Mode × Nat → Bool
  | 0, _ => true
  | n + 1, s =>
    (if s.1 = .PixelTransfer then decide (s.2 ≤ 143) else true) && skelSafe n (skelStep s).1

/-- SCY and SCX bytes small enough that the background fetch stays inside the
0x400-byte BG-map slice on every visible line. -/
def PpuOk (p : Ppu) : Prop :=
  p.mmu.memory 0xFF42 % 256 ≤ 112 ∧ p.mmu.memory 0xFF43 % 256 ≤ 96

/-!  ## Concrete states used by the claim theorems and witnesses -/

/-- A no-MBC cartridge with an all-zero 32 KiB ROM. -/
def zeroCart : Cart := .romOnly { rom := List.replicate 0x8000 0, ram := fun _ => 0 }

/-- An MMU over `zeroCart` with the given flat memory contents. -/
def mmuWith (f : Nat → Nat) : Mmu := { memory := f, cart := zeroCart, boot_rom := fun _ => 0 }

/-- All-zero memory with the boot ROM disabled (FF50 = 1). -/
def zeroMem : Nat → Nat := fun a => if a = 0xFF50 then 1 else 0

def zeroMmu : Mmu := mmuWith zeroMem

/-- IE = IF = 0x1F, IME set, halted, PC = 0x1234, SP = 0xD000. -/
def c1Machine : Machine :=
  { registers := { pc := 0x1234, sp := 0xD000 },
    mmu := mmuWith (fun a =>
      if a = 0xFF50 then 1 else if a = 0xFF0F then 0x1F else if a = 0xFFFF then 0x1F else 0),
    ime := true, halted := true }

/-- The MMU state after `write8(FF00, 0)` on `zeroMmu`. -/
def c2Written : Mmu := { zeroMmu with memory := updf zeroMmu.memory 0xC123 (0x42 % 256) }

/-- Opcode 35 (`DEC (HL)`) at PC with HL pointing at a WRAM byte of 5. -/
def c3Machine : Machine :=
  { registers := { pc := 0xC000, hl := 0xC100, sp := 0xD000 },
    mmu := mmuWith (fun a =>
      if a = 0xFF50 then 1 else if a = 0xC000 then 0x35 else if a = 0xC100 then 5 else 0),
    ime := false, halted := false }

/-- `POP AF` with the stack word 0x00FF. -/
def c4Machine : Machine :=
  { registers := { pc := 0xC000, sp := 0xD000 },
    mmu := mmuWith (fun a =>
      if a = 0xFF50 then 1 else if a = 0xC000 then 0xF1 else if a = 0xD000 then 0xFF else 0),
    ime := false, halted := false }

/-- `BIT 0,B` (CB 40) with B = 0x01. -/
def c5Machine : Machine :=
  { registers := { pc := 0xC000, bc := 0x0100, sp := 0xD000 },
    mmu := mmuWith (fun a =>
      if a = 0xFF50 then 1 else if a = 0xC000 then 0xCB else if a = 0xC001 then 0x40 else 0),
    ime := false, halted := false }

/-- A 64 KiB MBC1 ROM image (header 0x148 = 1, so 4 banks), with marker bytes
at offsets 0x4000 (bank 1) and 0x8000 (bank 2). -/
def c6Rom : List Nat :=
  (((List.replicate 0x10000 0).set 0x0148 1).set 0x8000 0x42).set 0x4000 0x77

def c6Cart : CartridgeMBC1 :=
  { rom := c6Rom, ram := [], rom_bank_count := 4, ram_bank_count := 0,
    selected_rom_bank := 1, selected_ram_bank := 0 }

/-- Source page 0xC1xx with marker bytes at offsets 0x05 (inside the 160-byte
OAM window) and 0xA0 (outside it). -/
def c7Mmu : Mmu := mmuWith (fun a =>
  if a = 0xFF50 then 1 else if a = 0xC105 then 0x77 else if a = 0xC1A0 then 0xAB else 0)

/-- LCDC = 0 (bit 4 clear), SCX = SCY = 0, BG map all tile 0; row 0 of the
tile at VRAM offset 0x800 (address 0x8800) is solid color 3, row 0 of the tile
at VRAM offset 0x1000 (address 0x9000) is solid color 0; BGP = 0xE4. -/
def c8Ppu : Ppu :=
  { mmu := mmuWith (fun a =>
      if a = 0xFF50 then 1 else
      if a = 0xFF47 then 0xE4 else
      if a = 0x8800 then 0xFF else
      if a = 0x8801 then 0xFF else 0),
    mode := .PixelTransfer, pixel_buffer := fun _ => Color32.WHITE, line_to_draw := 0 }

/-- A PPU at LY = 0 in OAMSearch over all-zero memory. -/
def c9Ppu : Ppu :=
  { mmu := zeroMmu, mode := .OAMSearch, pixel_buffer := fun _ => Color32.WHITE,
    line_to_draw := 0 }


/-!  ## Supporting lemmas -/

theorem and_two_pow_ne_zero (x i : Nat) : x &&& (1 <<< i) ≠ 0 ↔ x.testBit i := by
  rw [Nat.shiftLeft_eq, one_mul, Nat.and_two_pow]
  cases h : x.testBit i <;> simp [h, Nat.pow_eq_zero]

theorem and_bit0 (x : Nat) : x &&& 1 ≠ 0 ↔ x.testBit 0 := by
  simpa using and_two_pow_ne_zero x 0

theorem and_bit1 (x : Nat) : x &&& 2 ≠ 0 ↔ x.testBit 1 := by
  simpa using and_two_pow_ne_zero x 1

theorem and_bit2 (x : Nat) : x &&& 4 ≠ 0 ↔ x.testBit 2 := by
  simpa using and_two_pow_ne_zero x 2

theorem and_bit3 (x : Nat) : x &&& 8 ≠ 0 ↔ x.testBit 3 := by
  simpa using and_two_pow_ne_zero x 3

theorem and_bit4 (x : Nat) : x &&& 16 ≠ 0 ↔ x.testBit 4 := by
  simpa using and_two_pow_ne_zero x 4

theorem Mmu.read_8_plain (m : Mmu) (a : Nat) (h1 : 0xFF < a) (h2 : ¬ cartRange a)
    (h3 : a ≠ 0xFF00) : m.read_8 a = some (m.memory a % 256) := by
  rw [Mmu.read_8, if_neg (by rintro ⟨_, hle⟩; omega), if_neg h2, if_neg h3]

theorem Mmu.write_8_plain (m : Mmu) (a v : Nat) (h2 : ¬ cartRange a) (h3 : a ≠ 0xFF46) :
    m.write_8 a v = some { m with memory := updf m.memory a (v % 256) } := by
  rw [Mmu.write_8, if_neg h2, if_neg h3]

theorem Mmu.write_16_plain (m : Mmu) (a v : Nat) (h2 : ¬ cartRange a) :
    m.write_16 a v = some
      { m with memory := (updf (updf m.memory a (v % 256)) ((a + 1) % 65536) ((v >>> 8) % 256)) } := by
  rw [Mmu.write_16, if_neg h2]

theorem dispatch_branch (m : Machine) (vec w : Nat)
    (hsp1 : 0xC002 ≤ m.registers.sp) (hsp2 : m.registers.sp ≤ 0xDFFF) :
    ((m.call_vec vec).bind fun d =>
      (d.1.mwrite_8 0xFF0F w).bind fun m2 => some (m2, true))
    = some ({ registers := { m.registers with sp := m.registers.sp - 2, pc := vec % 65536 },
              mmu := { m.mmu with memory := (updf (updf (updf m.mmu.memory (m.registers.sp - 2) (m.registers.pc % 256)) (m.registers.sp - 1) ((m.registers.pc >>> 8) % 256)) 0xFF0F (w % 256)) },
              ime := m.ime, halted := m.halted }, true) := by
  have ha : (m.registers.sp + 65536 - 2) % 65536 = m.registers.sp - 2 := by omega
  have hb : (m.registers.sp - 2) % 65536 = m.registers.sp - 2 := by omega
  have ha1 : (m.registers.sp - 2 + 1) % 65536 = m.registers.sp - 1 := by omega
  have hncart : ¬ cartRange (m.registers.sp - 2) := by simp only [cartRange]; omega
  have hncartF : ¬ cartRange 0xFF0F := by decide
  have hw16 := Mmu.write_16_plain m.mmu (m.registers.sp - 2) m.registers.pc hncart
  rw [Machine.call_vec, Machine.push]
  simp only [Machine.get_16, Registers.get_16, Machine.set_16, Registers.set_16, ha, hb,
    Machine.mwrite_16, Machine.mwrite_8, hw16, ha1, Option.map_some', Option.bind_eq_bind,
    Option.some_bind, Option.pure_def]
  rw [Mmu.write_8_plain _ _ _ hncartF (by decide)]
  simp only [Option.map_some', Option.some_bind]


/-- Claim C1: whenever IME is set and some interrupt bit (0–4) is set in both
IE (FFFF) and IF (FF0F), `step` services the lowest-numbered enabled-and-pending
bit: it clears IME, clears exactly that bit in IF, pushes the current PC (SP
decreases by 2, the PC bytes land at SP-2/SP-1), sets PC to the vector
0x40 + 8·k, leaves the HALTED state, returns 20 T-cycles, and modifies no other
memory byte.  Stated for a stack pointer inside WRAM. -/
theorem claim_c1_interrupt_dispatch (m : Machine)
    (hime : m.ime = true)
    (hpend : ∃ k, k < 5 ∧ (m.mmu.memory 0xFFFF % 256).testBit k
              ∧ (m.mmu.memory 0xFF0F % 256).testBit k)
    (hsp1 : 0xC002 ≤ m.registers.sp) (hsp2 : m.registers.sp ≤ 0xDFFF) :
    ∃ k m',
      k < 5
      ∧ (m.mmu.memory 0xFFFF % 256).testBit k
      ∧ (m.mmu.memory 0xFF0F % 256).testBit k
      ∧ (∀ j, j < k → ¬((m.mmu.memory 0xFFFF % 256).testBit j
            ∧ (m.mmu.memory 0xFF0F % 256).testBit j))
      ∧ m.step = some (m', 20)
      ∧ m'.ime = false
      ∧ m'.halted = false
      ∧ m'.registers.pc = 0x40 + 8 * k
      ∧ m'.registers.sp = m.registers.sp - 2
      ∧ m'.mmu.memory 0xFF0F = (m.mmu.memory 0xFF0F % 256) &&& bnot8 (1 <<< k)
      ∧ m'.mmu.memory (m.registers.sp - 2) = m.registers.pc % 256
      ∧ m'.mmu.memory (m.registers.sp - 1) = (m.registers.pc >>> 8) % 256
      ∧ (∀ a, a ≠ 0xFF0F → a ≠ m.registers.sp - 2 → a ≠ m.registers.sp - 1 →
            m'.mmu.memory a = m.mmu.memory a) := by
  have hfl : m.mmu.memory 0xFF0F % 256 < 256 := by omega
  have hr1 : m.mmu.read_8 0xFF0F = some (m.mmu.memory 0xFF0F % 256) :=
    Mmu.read_8_plain _ _ (by omega) (by decide) (by decide)
  have hr2 : m.mmu.read_8 0xFFFF = some (m.mmu.memory 0xFFFF % 256) :=
    Mmu.read_8_plain _ _ (by omega) (by decide) (by decide)
  have e0 : VBLANKBIT = 1 := rfl
  have e1 : LCDBIT = 2 := rfl
  have e2 : TIMERBIT = 4 := rfl
  have e3 : SERIALBIT = 8 := rfl
  have e4 : JOYPADBIT = 16 := rfl
  by_cases c0 : m.mmu.memory 0xFFFF % 256 &&& 1 ≠ 0 ∧ m.mmu.memory 0xFF0F % 256 &&& 1 ≠ 0
  · have hstep : m.step = some
        ({ registers := { m.registers with sp := m.registers.sp - 2, pc := 64 % 65536 },
           mmu := { m.mmu with memory := (updf (updf (updf m.mmu.memory (m.registers.sp - 2) (m.registers.pc % 256)) (m.registers.sp - 1) ((m.registers.pc >>> 8) % 256)) 0xFF0F ((m.mmu.memory 0xFF0F % 256 &&& bnot8 1) % 256)) },
           ime := false, halted := false }, 20) := by
      rw [Machine.step, if_pos hime, Machine.check_for_interrupt, hr1]
      simp only [hr2, Option.bind_eq_bind, Option.some_bind, Option.pure_def, e0, e1, e2, e3, e4]
      rw [if_pos c0, dispatch_branch m 64 _ hsp1 hsp2]
      simp only [Option.some_bind, reduceIte]
    refine ⟨0, _, by omega, (and_bit0 _).mp c0.1, (and_bit0 _).mp c0.2,
      fun j hj => absurd hj (by omega), hstep, rfl, rfl, rfl, rfl, ?_, ?_, ?_, ?_⟩
    · simp only [updf, if_pos]
      exact Nat.mod_eq_of_lt (lt_of_le_of_lt Nat.and_le_left hfl)
    · simp only [updf]
      rw [if_neg (by omega), if_neg (by omega)]
      simp
    · simp only [updf]
      rw [if_neg (by omega)]
      simp
    · intro a h1 h2 h3
      simp only [updf]
      rw [if_neg h1, if_neg h3, if_neg h2]
  by_cases c1 : m.mmu.memory 0xFFFF % 256 &&& 2 ≠ 0 ∧ m.mmu.memory 0xFF0F % 256 &&& 2 ≠ 0
  · have hstep : m.step = some
        ({ registers := { m.registers with sp := m.registers.sp - 2, pc := 72 % 65536 },
           mmu := { m.mmu with memory := (updf (updf (updf m.mmu.memory (m.registers.sp - 2) (m.registers.pc % 256)) (m.registers.sp - 1) ((m.registers.pc >>> 8) % 256)) 0xFF0F ((m.mmu.memory 0xFF0F % 256 &&& bnot8 2) % 256)) },
           ime := false, halted := false }, 20) := by
      rw [Machine.step, if_pos hime, Machine.check_for_interrupt, hr1]
      simp only [hr2, Option.bind_eq_bind, Option.some_bind, Option.pure_def, e0, e1, e2, e3, e4]
      rw [if_neg c0]
      rw [if_pos c1, dispatch_branch m 72 _ hsp1 hsp2]
      simp only [Option.some_bind, reduceIte]
    refine ⟨1, _, by omega, (and_bit1 _).mp c1.1, (and_bit1 _).mp c1.2,
      ?_, hstep, rfl, rfl, rfl, rfl, ?_, ?_, ?_, ?_⟩
    · intro j hj
      interval_cases j
      · rintro ⟨ha, hb⟩
        exact c0 ⟨(and_bit0 _).mpr ha, (and_bit0 _).mpr hb⟩
    · simp only [updf, if_pos]
      exact Nat.mod_eq_of_lt (lt_of_le_of_lt Nat.and_le_left hfl)
    · simp only [updf]
      rw [if_neg (by omega), if_neg (by omega)]
      simp
    · simp only [updf]
      rw [if_neg (by omega)]
      simp
    · intro a h1 h2 h3
      simp only [updf]
      rw [if_neg h1, if_neg h3, if_neg h2]
  by_cases c2 : m.mmu.memory 0xFFFF % 256 &&& 4 ≠ 0 ∧ m.mmu.memory 0xFF0F % 256 &&& 4 ≠ 0
  · have hstep : m.step = some
        ({ registers := { m.registers with sp := m.registers.sp - 2, pc := 80 % 65536 },
           mmu := { m.mmu with memory := (updf (updf (updf m.mmu.memory (m.registers.sp - 2) (m.registers.pc % 256)) (m.registers.sp - 1) ((m.registers.pc >>> 8) % 256)) 0xFF0F ((m.mmu.memory 0xFF0F % 256 &&& bnot8 4) % 256)) },
           ime := false, halted := false }, 20) := by
      rw [Machine.step, if_pos hime, Machine.check_for_interrupt, hr1]
      simp only [hr2, Option.bind_eq_bind, Option.some_bind, Option.pure_def, e0, e1, e2, e3, e4]
      rw [if_neg c0]
      rw [if_neg c1]
      rw [if_pos c2, dispatch_branch m 80 _ hsp1 hsp2]
      simp only [Option.some_bind, reduceIte]
    refine ⟨2, _, by omega, (and_bit2 _).mp c2.1, (and_bit2 _).mp c2.2,
      ?_, hstep, rfl, rfl, rfl, rfl, ?_, ?_, ?_, ?_⟩
    · intro j hj
      interval_cases j
      · rintro ⟨ha, hb⟩
        exact c0 ⟨(and_bit0 _).mpr ha, (and_bit0 _).mpr hb⟩
      · rintro ⟨ha, hb⟩
        exact c1 ⟨(and_bit1 _).mpr ha, (and_bit1 _).mpr hb⟩
    · simp only [updf, if_pos]
      exact Nat.mod_eq_of_lt (lt_of_le_of_lt Nat.and_le_left hfl)
    · simp only [updf]
      rw [if_neg (by omega), if_neg (by omega)]
      simp
    · simp only [updf]
      rw [if_neg (by omega)]
      simp
    · intro a h1 h2 h3
      simp only [updf]
      rw [if_neg h1, if_neg h3, if_neg h2]
  by_cases c3 : m.mmu.memory 0xFFFF % 256 &&& 8 ≠ 0 ∧ m.mmu.memory 0xFF0F % 256 &&& 8 ≠ 0
  · have hstep : m.step = some
        ({ registers := { m.registers with sp := m.registers.sp - 2, pc := 88 % 65536 },
           mmu := { m.mmu with memory := (updf (updf (updf m.mmu.memory (m.registers.sp - 2) (m.registers.pc % 256)) (m.registers.sp - 1) ((m.registers.pc >>> 8) % 256)) 0xFF0F ((m.mmu.memory 0xFF0F % 256 &&& bnot8 8) % 256)) },
           ime := false, halted := false }, 20) := by
      rw [Machine.step, if_pos hime, Machine.check_for_interrupt, hr1]
      simp only [hr2, Option.bind_eq_bind, Option.some_bind, Option.pure_def, e0, e1, e2, e3, e4]
      rw [if_neg c0]
      rw [if_neg c1]
      rw [if_neg c2]
      rw [if_pos c3, dispatch_branch m 88 _ hsp1 hsp2]
      simp only [Option.some_bind, reduceIte]
    refine ⟨3, _, by omega, (and_bit3 _).mp c3.1, (and_bit3 _).mp c3.2,
      ?_, hstep, rfl, rfl, rfl, rfl, ?_, ?_, ?_, ?_⟩
    · intro j hj
      interval_cases j
      · rintro ⟨ha, hb⟩
        exact c0 ⟨(and_bit0 _).mpr ha, (and_bit0 _).mpr hb⟩
      · rintro ⟨ha, hb⟩
        exact c1 ⟨(and_bit1 _).mpr ha, (and_bit1 _).mpr hb⟩
      · rintro ⟨ha, hb⟩
        exact c2 ⟨(and_bit2 _).mpr ha, (and_bit2 _).mpr hb⟩
    · simp only [updf, if_pos]
      exact Nat.mod_eq_of_lt (lt_of_le_of_lt Nat.and_le_left hfl)
    · simp only [updf]
      rw [if_neg (by omega), if_neg (by omega)]
      simp
    · simp only [updf]
      rw [if_neg (by omega)]
      simp
    · intro a h1 h2 h3
      simp only [updf]
      rw [if_neg h1, if_neg h3, if_neg h2]
  by_cases c4 : m.mmu.memory 0xFFFF % 256 &&& 16 ≠ 0 ∧ m.mmu.memory 0xFF0F % 256 &&& 16 ≠ 0
  · have hstep : m.step = some
        ({ registers := { m.registers with sp := m.registers.sp - 2, pc := 96 % 65536 },
           mmu := { m.mmu with memory := (updf (updf (updf m.mmu.memory (m.registers.sp - 2) (m.registers.pc % 256)) (m.registers.sp - 1) ((m.registers.pc >>> 8) % 256)) 0xFF0F ((m.mmu.memory 0xFF0F % 256 &&& bnot8 16) % 256)) },
           ime := false, halted := false }, 20) := by
      rw [Machine.step, if_pos hime, Machine.check_for_interrupt, hr1]
      simp only [hr2, Option.bind_eq_bind, Option.some_bind, Option.pure_def, e0, e1, e2, e3, e4]
      rw [if_neg c0]
      rw [if_neg c1]
      rw [if_neg c2]
      rw [if_neg c3]
      rw [if_pos c4, dispatch_branch m 96 _ hsp1 hsp2]
      simp only [Option.some_bind, reduceIte]
    refine ⟨4, _, by omega, (and_bit4 _).mp c4.1, (and_bit4 _).mp c4.2,
      ?_, hstep, rfl, rfl, rfl, rfl, ?_, ?_, ?_, ?_⟩
    · intro j hj
      interval_cases j
      · rintro ⟨ha, hb⟩
        exact c0 ⟨(and_bit0 _).mpr ha, (and_bit0 _).mpr hb⟩
      · rintro ⟨ha, hb⟩
        exact c1 ⟨(and_bit1 _).mpr ha, (and_bit1 _).mpr hb⟩
      · rintro ⟨ha, hb⟩
        exact c2 ⟨(and_bit2 _).mpr ha, (and_bit2 _).mpr hb⟩
      · rintro ⟨ha, hb⟩
        exact c3 ⟨(and_bit3 _).mpr ha, (and_bit3 _).mpr hb⟩
    · simp only [updf, if_pos]
      exact Nat.mod_eq_of_lt (lt_of_le_of_lt Nat.and_le_left hfl)
    · simp only [updf]
      rw [if_neg (by omega), if_neg (by omega)]
      simp
    · simp only [updf]
      rw [if_neg (by omega)]
      simp
    · intro a h1 h2 h3
      simp only [updf]
      rw [if_neg h1, if_neg h3, if_neg h2]
  · exfalso
    obtain ⟨k, hk, hiek, hifk⟩ := hpend
    interval_cases k
    · exact c0 ⟨(and_bit0 _).mpr hiek, (and_bit0 _).mpr hifk⟩
    · exact c1 ⟨(and_bit1 _).mpr hiek, (and_bit1 _).mpr hifk⟩
    · exact c2 ⟨(and_bit2 _).mpr hiek, (and_bit2 _).mpr hifk⟩
    · exact c3 ⟨(and_bit3 _).mpr hiek, (and_bit3 _).mpr hifk⟩
    · exact c4 ⟨(and_bit4 _).mpr hiek, (and_bit4 _).mpr hifk⟩

theorem set_mode_spec (p : Ppu) (mode : Mode) :
    ∃ p', p.set_mode mode = some p' ∧ p'.mode = mode ∧ p'.line_to_draw = p.line_to_draw
      ∧ (∀ a, a ≠ 0xFF41 → a ≠ 0xFF0F → p'.mmu.memory a = p.mmu.memory a) := by
  rw [Ppu.set_mode]
  rw [Mmu.read_8_plain _ _ (by omega) (by decide) (by decide)]
  simp only [Option.bind_eq_bind, Option.some_bind, Option.pure_def]
  rw [Mmu.write_8_plain _ _ _ (by decide) (by decide)]
  simp only [Option.bind_eq_bind, Option.some_bind, Option.pure_def]
  rw [Ppu.trigger_interrupts]
  rw [Mmu.read_8_plain _ _ (by omega) (by decide) (by decide)]
  simp only [Option.bind_eq_bind, Option.some_bind, Option.pure_def]
  rw [Mmu.read_8_plain _ _ (by omega) (by decide) (by decide)]
  simp only [Option.bind_eq_bind, Option.some_bind, Option.pure_def]
  rw [Mmu.read_8_plain _ _ (by omega) (by decide) (by decide)]
  simp only [Option.bind_eq_bind, Option.some_bind, Option.pure_def]
  rw [Mmu.write_8_plain _ _ _ (by decide) (by decide)]
  simp only [Option.bind_eq_bind, Option.some_bind, Option.pure_def]
  refine ⟨_, rfl, rfl, rfl, ?_⟩
  intro a h1 h2
  simp only [updf]
  rw [if_neg h2, if_neg h1]

theorem draw_bg_loop_some (mmu : Mmu) (tb ly scx line : Nat) (pal : ColorPalette)
    (hly : ly ≤ 255) (hscx : scx ≤ 96) :
    ∀ fuel i buf, i + fuel ≤ 160 →
      ∃ buf', draw_bg_loop mmu tb ly scx line pal i fuel buf = some buf' := by
  intro fuel
  induction fuel with
  | zero => intro i buf _; exact ⟨buf, rfl⟩
  | succ n ih =>
      intro i buf hle
      rw [draw_bg_loop]
      rw [if_pos (by
        have h1 : ly / 8 ≤ 31 := by omega
        have h2 : (scx + i) / 8 ≤ 31 := by omega
        omega)]
      exact ih (i + 1) _ (by omega)

theorem draw_line_spec (p : Ppu) (hok : PpuOk p) (hline : p.line_to_draw ≤ 143) :
    ∃ p', p.draw_line = some (p', 172) ∧ p'.mode = p.mode
      ∧ p'.line_to_draw = p.line_to_draw + 1
      ∧ (∀ a, a ≠ 0xFF44 → a ≠ 0xFF0F → p'.mmu.memory a = p.mmu.memory a) := by
  obtain ⟨hscy, hscx⟩ := hok
  rw [Ppu.draw_line, Ppu.draw_bg_line]
  rw [Mmu.read_8_plain _ _ (by omega) (by decide) (by decide)]
  simp only [Option.bind_eq_bind, Option.some_bind, Option.pure_def]
  rw [Mmu.read_8_plain _ _ (by omega) (by decide) (by decide)]
  simp only [Option.bind_eq_bind, Option.some_bind, Option.pure_def]
  rw [Mmu.read_8_plain _ _ (by omega) (by decide) (by decide)]
  simp only [Option.bind_eq_bind, Option.some_bind, Option.pure_def]
  rw [Mmu.read_8_plain _ _ (by omega) (by decide) (by decide)]
  simp only [Option.bind_eq_bind, Option.some_bind, Option.pure_def]
  obtain ⟨buf', hbuf⟩ := draw_bg_loop_some p.mmu
      (if p.mmu.memory 0xFF40 % 256 &&& 16 ≠ 0 then 0 else 0x800)
      (p.mmu.memory 0xFF42 % 256 + p.line_to_draw) (p.mmu.memory 0xFF43 % 256)
      p.line_to_draw (ColorPalette.from_dmg_palette (p.mmu.memory 0xFF47 % 256))
      (by omega) hscx 160 0 p.pixel_buffer (by omega)
  rw [hbuf]
  simp only [Option.bind_eq_bind, Option.some_bind, Option.pure_def]
  rw [Mmu.write_8_plain _ _ _ (by decide) (by decide)]
  simp only [Option.bind_eq_bind, Option.some_bind, Option.pure_def]
  rw [Mmu.read_8_plain _ _ (by omega) (by decide) (by decide)]
  simp only [Option.bind_eq_bind, Option.some_bind, Option.pure_def]
  rw [Mmu.read_8_plain _ _ (by omega) (by decide) (by decide)]
  simp only [Option.bind_eq_bind, Option.some_bind, Option.pure_def]
  rw [Mmu.read_8_plain _ _ (by omega) (by decide) (by decide)]
  simp only [Option.bind_eq_bind, Option.some_bind, Option.pure_def]
  rw [Mmu.read_8_plain _ _ (by omega) (by decide) (by decide)]
  simp only [Option.bind_eq_bind, Option.some_bind, Option.pure_def]
  rw [Mmu.read_8_plain _ _ (by omega) (by decide) (by decide)]
  simp only [Option.bind_eq_bind, Option.some_bind, Option.pure_def]
  rw [Mmu.write_8_plain _ _ _ (by decide) (by decide)]
  simp only [Option.bind_eq_bind, Option.some_bind, Option.pure_def]
  refine ⟨_, rfl, rfl, rfl, ?_⟩
  intro a h1 h2
  simp only [updf]
  rw [if_neg h2, if_neg h1]

theorem ppu_step_sim (p : Ppu) (hok : PpuOk p)
    (hsafe : p.mode = .PixelTransfer → p.line_to_draw ≤ 143) :
    ∃ p', p.step = some (p', (skelStep (p.mode, p.line_to_draw)).2.1,
                            (skelStep (p.mode, p.line_to_draw)).2.2)
      ∧ p'.mode = (skelStep (p.mode, p.line_to_draw)).1.1
      ∧ p'.line_to_draw = (skelStep (p.mode, p.line_to_draw)).1.2
      ∧ PpuOk p' := by
  cases hm : p.mode with
  | OAMSearch =>
      obtain ⟨p1, hsm, hm1, hl1, hmem1⟩ := set_mode_spec p .PixelTransfer
      refine ⟨p1, ?_, ?_, ?_, ?_, ?_⟩
      · simp only [Ppu.step, hm, Ppu.step_oam_search, hsm, skelStep,
          Option.bind_eq_bind, Option.some_bind, Option.pure_def]
      · simp only [skelStep, hm1]
      · simp only [skelStep, hl1]
      · exact (by rw [hmem1 _ (by decide) (by decide)]; exact hok.1)
      · exact (by rw [hmem1 _ (by decide) (by decide)]; exact hok.2)
  | PixelTransfer =>
      obtain ⟨p1, hdl, hm1, hl1, hmem1⟩ := draw_line_spec p hok (hsafe hm)
      obtain ⟨p2, hsm, hm2, hl2, hmem2⟩ := set_mode_spec p1 .HBlank
      refine ⟨p2, ?_, ?_, ?_, ?_, ?_⟩
      · simp only [Ppu.step, hm, Ppu.step_pixel_transfer, hdl, hsm, hl1, skelStep,
          Option.bind_eq_bind, Option.some_bind, Option.pure_def]
      · simp only [skelStep, hm2]
      · simp only [skelStep, hl2, hl1]
      · exact (by rw [hmem2 _ (by decide) (by decide), hmem1 _ (by decide) (by decide)]
                  exact hok.1)
      · exact (by rw [hmem2 _ (by decide) (by decide), hmem1 _ (by decide) (by decide)]
                  exact hok.2)
  | HBlank =>
      by_cases hge : p.line_to_draw ≥ 144
      · obtain ⟨p1, hsm, hm1, hl1, hmem1⟩ := set_mode_spec p .VBlank
        refine ⟨p1, ?_, ?_, ?_, ?_, ?_⟩
        · simp only [Ppu.step, hm, Ppu.step_h_blank, if_pos hge, hsm, skelStep,
            Option.bind_eq_bind, Option.some_bind, Option.pure_def]
        · simp only [skelStep, hm1, if_pos hge]
        · simp only [skelStep, hl1]
        · exact (by rw [hmem1 _ (by decide) (by decide)]; exact hok.1)
        · exact (by rw [hmem1 _ (by decide) (by decide)]; exact hok.2)
      · obtain ⟨p1, hsm, hm1, hl1, hmem1⟩ := set_mode_spec p .OAMSearch
        refine ⟨p1, ?_, ?_, ?_, ?_, ?_⟩
        · simp only [Ppu.step, hm, Ppu.step_h_blank, if_neg hge, hsm, skelStep,
            Option.bind_eq_bind, Option.some_bind, Option.pure_def]
        · simp only [skelStep, hm1, if_neg hge]
        · simp only [skelStep, hl1]
        · exact (by rw [hmem1 _ (by decide) (by decide)]; exact hok.1)
        · exact (by rw [hmem1 _ (by decide) (by decide)]; exact hok.2)
  | VBlank =>
      by_cases h153 : p.line_to_draw + 1 > 153
      · obtain ⟨p1, hsm, hm1, hl1, hmem1⟩ :=
          set_mode_spec { mmu := p.mmu, mode := .VBlank, pixel_buffer := p.pixel_buffer,
                          line_to_draw := 0 } .OAMSearch
        refine ⟨{ p1 with mmu := { p1.mmu with
            memory := updf p1.mmu.memory 0xFF44 (p1.line_to_draw % 256 % 256) } },
          ?_, ?_, ?_, ?_, ?_⟩
        · simp only [Ppu.step, hm, Ppu.step_v_blank]
          rw [if_pos (by simpa using h153)]
          simp only [hsm]
          simp only [Option.bind_eq_bind, Option.some_bind, Option.pure_def]
          rw [Mmu.write_8_plain _ _ _ (by decide) (by decide)]
          simp only [Option.bind_eq_bind, Option.some_bind, Option.pure_def, skelStep,
            if_pos h153]
        · simp only [skelStep, if_pos h153, hm1]
        · simp only [skelStep, if_pos h153]
          simpa using hl1
        · simp only [updf]
          rw [if_neg (by decide), hmem1 0xFF42 (by decide) (by decide)]
          simpa using hok.1
        · simp only [updf]
          rw [if_neg (by decide), hmem1 0xFF43 (by decide) (by decide)]
          simpa using hok.2
      · refine ⟨{ p with line_to_draw := p.line_to_draw + 1, mmu := { p.mmu with
            memory := updf p.mmu.memory 0xFF44 ((p.line_to_draw + 1) % 256 % 256) } },
          ?_, ?_, ?_, ?_, ?_⟩
        · simp only [Ppu.step, hm, Ppu.step_v_blank]
          rw [if_neg (by simpa using h153)]
          simp only [Option.bind_eq_bind, Option.some_bind, Option.pure_def]
          rw [Mmu.write_8_plain _ _ _ (by decide) (by decide)]
          simp only [Option.bind_eq_bind, Option.some_bind, Option.pure_def, skelStep,
            if_neg h153]
        · simp only [skelStep, if_neg h153, hm]
        · simp only [skelStep, if_neg h153]
        · simp only [updf]
          rw [if_neg (by decide)]
          exact hok.1
        · simp only [updf]
          rw [if_neg (by decide)]
          exact hok.2

theorem ppu_run_sim (n : Nat) : ∀ (p : Ppu), PpuOk p →
    skelSafe n (p.mode, p.line_to_draw) = true →
    ∃ p', p.run n = some (p', (skelRun n (p.mode, p.line_to_draw)).2.1,
                             (skelRun n (p.mode, p.line_to_draw)).2.2)
      ∧ p'.mode = (skelRun n (p.mode, p.line_to_draw)).1.1
      ∧ p'.line_to_draw = (skelRun n (p.mode, p.line_to_draw)).1.2
      ∧ PpuOk p' := by
  induction n with
  | zero => intro p hok _; exact ⟨p, rfl, rfl, rfl, hok⟩
  | succ n ih =>
      intro p hok hsafe
      rw [skelSafe, Bool.and_eq_true] at hsafe
      obtain ⟨h1, h2⟩ := hsafe
      have hpt : p.mode = .PixelTransfer → p.line_to_draw ≤ 143 := by
        intro hp
        simp only [hp] at h1
        simpa using h1
      obtain ⟨p1, hstep, hm1, hl1, hok1⟩ := ppu_step_sim p hok hpt
      have hsafe1 : skelSafe n (p1.mode, p1.line_to_draw) = true := by
        rw [hm1, hl1]; exact h2
      obtain ⟨p2, hrun, hm2, hl2, hok2⟩ := ih p1 hok1 hsafe1
      rw [hm1, hl1] at hrun hm2 hl2
      refine ⟨p2, ?_, ?_, ?_, hok2⟩
      · rw [Ppu.run, hstep]
        simp only [Option.bind_eq_bind, Option.some_bind, Option.pure_def, hrun]
        simp only [skelRun]
      · rw [hm2]; simp only [skelRun]
      · rw [hl2]; simp only [skelRun]

theorem c9_skel : skelRun 442 (.OAMSearch, 0) = ((.OAMSearch, 0), 70224, 1) := by decide

theorem c9_safe : skelSafe 442 (.OAMSearch, 0) = true := by decide

/-- Claim C9: starting from LY = 0 and mode = OAMSearch, 442 PPU steps take
exactly 70,224 T-cycles, return the PPU to LY = 0 and OAMSearch, and send
exactly one framebuffer (Render) message.  The SCY/SCX bounds keep the
background fetch inside the BG-map slice, as any renderable state has it. -/
theorem claim_c9_frame_timing (p : Ppu) (hmode : p.mode = .OAMSearch) (hline : p.line_to_draw = 0)
    (hscy : p.mmu.memory 0xFF42 % 256 ≤ 112) (hscx : p.mmu.memory 0xFF43 % 256 ≤ 96) :
    ∃ p', p.run 442 = some (p', 70224, 1)
      ∧ p'.mode = .OAMSearch ∧ p'.line_to_draw = 0 := by
  obtain ⟨p', hrun, hm, hl, _⟩ := ppu_run_sim 442 p ⟨hscy, hscx⟩
    (by rw [hmode, hline]; exact c9_safe)
  rw [hmode, hline, c9_skel] at hrun hm hl
  exact ⟨p', hrun, hm, hl⟩

/-- Claim C2 (amended): for every address outside ROM (0000–7FFF), the echo
region, FF04, FF46, *and FF00* (the joypad register, which the MMU stubs to a
constant 0x0F), a successful `write8(a, v)` followed by `read8(a)` returns `v`.
The original claim, without the FF00 exclusion, is refuted by
`claim_c2_counterexample`. -/
theorem claim_c2_roundtrip_amended (m : Mmu) (a v : Nat) (m' : Mmu)
    (ha16 : a ≤ 0xFFFF)
    (hrom : ¬ a ≤ 0x7FFF)
    (hecho : ¬ (0xE000 ≤ a ∧ a ≤ 0xFDFF))
    (hdiv : a ≠ 0xFF04) (hdma : a ≠ 0xFF46) (hjoy : a ≠ 0xFF00)
    (hv : v < 256)
    (hw : m.write_8 a v = some m') :
    m'.read_8 a = some v := by
  have hvv : v % 256 = v := Nat.mod_eq_of_lt hv
  by_cases hcart : cartRange a
  · have haA : 0xA000 ≤ a ∧ a ≤ 0xBFFF := by
      rcases hcart with h | h
      · omega
      · exact h
    rw [Mmu.write_8, if_pos hcart] at hw
    rcases hc : m.cart with c | c
    · rw [hc] at hw
      simp only [Cart.write_8, Option.bind_eq_bind, Option.some_bind, Option.pure_def,
        Option.some.injEq] at hw
      subst hw
      rw [Mmu.read_8, if_neg (by rintro ⟨_, hle⟩; omega), if_pos hcart]
      simp only [Cart.read_8, CartridgeROM.write_8, if_pos haA, CartridgeROM.read_8,
        if_neg hrom, updf, if_true, Option.map_some', hvv]
    · rw [hc] at hw
      simp only [Cart.write_8, Option.bind_eq_bind, Option.some_bind, Option.pure_def] at hw
      rw [CartridgeMBC1.write_8] at hw
      rw [if_neg (by omega), if_neg (by omega), if_neg (by omega), if_neg (by omega),
        if_pos haA] at hw
      rw [CartridgeMBC1.ram_write_8] at hw
      by_cases hlen : c.selected_ram_bank * 0x2000 + a - 0xA000 < c.ram.length
      · rw [if_pos hlen] at hw
        simp only [Option.map_some', Option.some_bind, Option.some.injEq] at hw
        subst hw
        rw [Mmu.read_8, if_neg (by rintro ⟨_, hle⟩; omega), if_pos hcart]
        simp only [Cart.read_8, CartridgeMBC1.read_8]
        rw [if_neg (by omega), if_neg (by omega), if_pos haA]
        rw [CartridgeMBC1.ram_read_8]
        simp only [List.get?_eq_getElem?]
        rw [List.getElem?_set_self (by simpa using hlen)]
        simp only [Option.map_some']
        rw [hvv, hvv]
      · rw [if_neg hlen] at hw
        simp at hw
  · rw [Mmu.write_8, if_neg hcart, if_neg hdma, Option.some.injEq] at hw
    subst hw
    rw [Mmu.read_8, if_neg (by rintro ⟨_, hle⟩; omega), if_neg hcart, if_neg hjoy]
    simp only [updf, if_true, hvv]

theorem c6_len : c6Rom.length = 0x10000 := by
  rw [c6Rom]; simp only [List.length_set, List.length_replicate]

theorem c6_at_0148 : c6Rom[0x0148]? = some 1 := by
  rw [c6Rom]
  rw [List.getElem?_set_ne (show (0x4000:Nat) ≠ 0x0148 by decide),
      List.getElem?_set_ne (show (0x8000:Nat) ≠ 0x0148 by decide)]
  exact List.getElem?_set_self (by simp only [List.length_replicate]; omega)

theorem c6_at_0149 : c6Rom[0x0149]? = some 0 := by
  rw [c6Rom]
  rw [List.getElem?_set_ne (show (0x4000:Nat) ≠ 0x0149 by decide),
      List.getElem?_set_ne (show (0x8000:Nat) ≠ 0x0149 by decide),
      List.getElem?_set_ne (show (0x0148:Nat) ≠ 0x0149 by decide),
      List.getElem?_replicate, if_pos (by omega)]

theorem c6_at_4000 : c6Rom[0x4000]? = some 0x77 := by
  rw [c6Rom]
  exact List.getElem?_set_self
    (by simp only [List.length_set, List.length_replicate]; omega)

theorem c6_at_8000 : c6Rom[0x8000]? = some 0x42 := by
  rw [c6Rom]
  rw [List.getElem?_set_ne (show (0x4000:Nat) ≠ 0x8000 by decide)]
  exact List.getElem?_set_self
    (by simp only [List.length_set, List.length_replicate]; omega)

theorem c6_at_14000 : c6Rom[0x14000]? = none := by
  apply List.getElem?_eq_none
  have := c6_len; omega

theorem c6_getD148 : c6Rom.getD 0x0148 0 = 1 := by
  rw [List.getD_eq_getElem?_getD, c6_at_0148]; rfl

theorem c6_getD149 : c6Rom.getD 0x0149 0 = 0 := by
  rw [List.getD_eq_getElem?_getD, c6_at_0149]; rfl

theorem c6_new : CartridgeMBC1.new c6Rom = some c6Cart := by
  simp only [CartridgeMBC1.new, c6_getD148, c6_getD149]
  rfl

/-- Claim C6: refuted evaluation.  On a 64 KiB MBC1 ROM (4 banks), writing
0x05 to 0x2000 selects raw bank 5 — the code never reduces modulo
`rom_bank_count` (the field is computed but unused) — so a read of 0x4000
indexes the ROM out of bounds (a Rust panic, `none` here), whereas the
spec-mandated masked bank is 1, whose byte is 0x77.  The claim's positive
example (write 0x02, read ROM offset 0x8000 = 0x42) does hold. -/
theorem claim_c6_mbc1_bank_mask :
    ((CartridgeMBC1.new c6Rom).bind (fun c => c.write_8 0x2000 0x05)).bind
        (fun c => c.read_8 0x4000) = none ∧
    (CartridgeMBC1.new c6Rom).map (fun c => c.rom_bank_count) = some 4 ∧
    spec_mbc1_selected_bank 0x05 4 = 1 ∧
    c6Rom[1 * 0x4000 + 0x4000 - 0x4000]? = some 0x77 ∧
    ((CartridgeMBC1.new c6Rom).bind (fun c => c.write_8 0x2000 0x02)).bind
        (fun c => c.read_8 0x4000) = some 0x42 := by
  have hw5 : (CartridgeMBC1.new c6Rom).bind (fun c => c.write_8 0x2000 0x05)
      = some { c6Cart with selected_rom_bank := 5 } := by rw [c6_new]; rfl
  have hw2 : (CartridgeMBC1.new c6Rom).bind (fun c => c.write_8 0x2000 0x02)
      = some { c6Cart with selected_rom_bank := 2 } := by rw [c6_new]; rfl
  have hr5 : CartridgeMBC1.read_8 { c6Cart with selected_rom_bank := 5 } 0x4000
      = c6Rom.get? 0x14000 := rfl
  have hr2 : CartridgeMBC1.read_8 { c6Cart with selected_rom_bank := 2 } 0x4000
      = c6Rom.get? 0x8000 := rfl
  refine ⟨?_, ?_, by decide, c6_at_4000, ?_⟩
  · rw [hw5, Option.some_bind, hr5, List.get?_eq_getElem?, c6_at_14000]
  · rw [c6_new]; rfl
  · rw [hw2, Option.some_bind, hr2, List.get?_eq_getElem?, c6_at_8000]

theorem press_release_nat : ∀ n, n < 8 → ∀ x, x < 256 →
    (setBit8 (clearBit8 x n) n).testBit n = true
    ∧ (∀ k, k < 8 → k ≠ n → (setBit8 (clearBit8 x n) n).testBit k = x.testBit k)
    ∧ (x.testBit n = true → setBit8 (clearBit8 x n) n = x) := by decide

/-- Claim C10: for every joypad state (two `u8` masks) and button,
`button_pressed b` then `button_released b` leaves b's mask bit at 1, leaves
every other bit of both 4-bit masks and the select mode unchanged, and if b was
already released beforehand restores the entire state exactly. -/
theorem claim_c10_press_release (j : Joypad) (b : DmgButton)
    (hb : j.buttons < 256) (hd : j.d_pad < 256) :
    (((j.button_pressed b).button_released b).maskOf b).testBit b.mask_index = true
    ∧ (∀ k, k < 4 → k ≠ b.mask_index →
        (((j.button_pressed b).button_released b).maskOf b).testBit k
          = (j.maskOf b).testBit k)
    ∧ ((j.button_pressed b).button_released b).otherMaskOf b = j.otherMaskOf b
    ∧ ((j.button_pressed b).button_released b).select_mode = j.select_mode
    ∧ ((j.maskOf b).testBit b.mask_index = true → (j.button_pressed b).button_released b = j) := by
  obtain ⟨bu, dp, sm⟩ := j
  cases b
  case Up =>
    refine ⟨(press_release_nat 2 (by omega) dp hd).1,
      fun k hk hkn => (press_release_nat 2 (by omega) dp hd).2.1 k (by omega) hkn,
      rfl, rfl, fun hbit => ?_⟩
    have h := (press_release_nat 2 (by omega) dp hd).2.2 hbit
    simp only [Joypad.button_pressed, Joypad.button_released, h]
  case Down =>
    refine ⟨(press_release_nat 3 (by omega) dp hd).1,
      fun k hk hkn => (press_release_nat 3 (by omega) dp hd).2.1 k (by omega) hkn,
      rfl, rfl, fun hbit => ?_⟩
    have h := (press_release_nat 3 (by omega) dp hd).2.2 hbit
    simp only [Joypad.button_pressed, Joypad.button_released, h]
  case Left =>
    refine ⟨(press_release_nat 1 (by omega) dp hd).1,
      fun k hk hkn => (press_release_nat 1 (by omega) dp hd).2.1 k (by omega) hkn,
      rfl, rfl, fun hbit => ?_⟩
    have h := (press_release_nat 1 (by omega) dp hd).2.2 hbit
    simp only [Joypad.button_pressed, Joypad.button_released, h]
  case Right =>
    refine ⟨(press_release_nat 0 (by omega) dp hd).1,
      fun k hk hkn => (press_release_nat 0 (by omega) dp hd).2.1 k (by omega) hkn,
      rfl, rfl, fun hbit => ?_⟩
    have h := (press_release_nat 0 (by omega) dp hd).2.2 hbit
    simp only [Joypad.button_pressed, Joypad.button_released, h]
  case A =>
    refine ⟨(press_release_nat 0 (by omega) bu hb).1,
      fun k hk hkn => (press_release_nat 0 (by omega) bu hb).2.1 k (by omega) hkn,
      rfl, rfl, fun hbit => ?_⟩
    have h := (press_release_nat 0 (by omega) bu hb).2.2 hbit
    simp only [Joypad.button_pressed, Joypad.button_released, h]
  case B =>
    refine ⟨(press_release_nat 1 (by omega) bu hb).1,
      fun k hk hkn => (press_release_nat 1 (by omega) bu hb).2.1 k (by omega) hkn,
      rfl, rfl, fun hbit => ?_⟩
    have h := (press_release_nat 1 (by omega) bu hb).2.2 hbit
    simp only [Joypad.button_pressed, Joypad.button_released, h]
  case Start =>
    refine ⟨(press_release_nat 3 (by omega) bu hb).1,
      fun k hk hkn => (press_release_nat 3 (by omega) bu hb).2.1 k (by omega) hkn,
      rfl, rfl, fun hbit => ?_⟩
    have h := (press_release_nat 3 (by omega) bu hb).2.2 hbit
    simp only [Joypad.button_pressed, Joypad.button_released, h]
  case Select =>
    refine ⟨(press_release_nat 2 (by omega) bu hb).1,
      fun k hk hkn => (press_release_nat 2 (by omega) bu hb).2.1 k (by omega) hkn,
      rfl, rfl, fun hbit => ?_⟩
    have h := (press_release_nat 2 (by omega) bu hb).2.2 hbit
    simp only [Joypad.button_pressed, Joypad.button_released, h]

/-- Witness for C10 at the reset joypad state and button A. -/
theorem claim_c10_witness :
    Joypad.new.buttons < 256 ∧ Joypad.new.d_pad < 256 ∧
    ((((Joypad.new.button_pressed .A).button_released .A).maskOf .A).testBit
        (DmgButton.mask_index .A) = true
    ∧ (∀ k, k < 4 → k ≠ DmgButton.mask_index .A →
        (((Joypad.new.button_pressed .A).button_released .A).maskOf .A).testBit k
          = (Joypad.new.maskOf .A).testBit k)
    ∧ ((Joypad.new.button_pressed .A).button_released .A).otherMaskOf .A
        = Joypad.new.otherMaskOf .A
    ∧ ((Joypad.new.button_pressed .A).button_released .A).select_mode
        = Joypad.new.select_mode
    ∧ ((Joypad.new.maskOf .A).testBit (DmgButton.mask_index .A) = true →
        (Joypad.new.button_pressed .A).button_released .A = Joypad.new)) :=
  ⟨by decide, by decide, claim_c10_press_release Joypad.new .A (by decide) (by decide)⟩

/-- Claim C2 counterexample: FF00 is outside every region the claim excludes,
yet after `write8(FF00, 0)` the next `read8(FF00)` returns the joypad stub
value 0x0F, not 0. -/
theorem claim_c2_counterexample :
    ∃ mm : Mmu, zeroMmu.write_8 0xFF00 0x00 = some mm ∧ mm.read_8 0xFF00 = some 0x0F ∧
      (0x0F : Nat) ≠ 0x00 :=
  ⟨_, rfl, by decide, by decide⟩

/-- Witness for the amended C2 at a WRAM address. -/
theorem claim_c2_witness :
    (0xC123 : Nat) ≤ 0xFFFF ∧ ¬ (0xC123 : Nat) ≤ 0x7FFF
    ∧ ¬ (0xE000 ≤ (0xC123 : Nat) ∧ (0xC123 : Nat) ≤ 0xFDFF)
    ∧ (0xC123 : Nat) ≠ 0xFF04 ∧ (0xC123 : Nat) ≠ 0xFF46 ∧ (0xC123 : Nat) ≠ 0xFF00
    ∧ (0x42 : Nat) < 256
    ∧ zeroMmu.write_8 0xC123 0x42 = some c2Written
    ∧ c2Written.read_8 0xC123 = some 0x42 :=
  ⟨by decide, by decide, by decide, by decide, by decide, by decide, by decide, rfl,
   claim_c2_roundtrip_amended zeroMmu 0xC123 0x42 c2Written (by decide) (by decide)
     (by decide) (by decide) (by decide) (by decide) (by decide) rfl⟩

/-- Claim C3: failing evaluation.  Executing opcode 35 (`DEC (HL)`) returns
8 T-cycles — the memory byte is decremented — but the canonical DMG opcode
table charges 12 for `DEC (HL)`. -/
theorem claim_c3_dec_hl_cost :
    (c3Machine.step).map (fun r => r.2) = some 8 ∧
    (c3Machine.step).bind (fun r => r.1.mmu.read_8 0xC100) = some 4 ∧
    8 ≠ dmg_table_dec_hl_cost :=
  ⟨by decide, by decide, by decide⟩

/-- Claim C4: failing evaluation.  `POP AF` with the stack word 0x00FF loads
F = 0xFF — `Registers::set_16` (and `set_8` on F) never masks the low nibble
of F, so the invariant "low nibble of F is always zero" is violated. -/
theorem claim_c4_pop_af_low_nibble :
    (c4Machine.step).map (fun r => (r.2, r.1.registers.get_8 .F)) = some (12, 0xFF) ∧
    (0xFF : Nat) &&& 0x0F ≠ 0 :=
  ⟨by decide, by decide⟩

/-- Claim C5: failing evaluation.  `BIT 0,B` with B = 0x01 (bit 0 set) makes
the code set Z = true, the tested bit itself, whereas the claim (and the DMG)
requires Z to be the *complement* of the bit, i.e. false here. -/
theorem claim_c5_bit_zflag :
    (c5Machine.get_8 .B).testBit 0 = true ∧
    (c5Machine.step).map (fun r => (r.2, r.1.registers.get_zero_flag)) = some (8, true) :=
  ⟨by decide, by decide⟩

/-- Claim C7: failing evaluation.  `write8(FF46, 0xC1)` copies the byte at
0xC105 into OAM (FE05) as claimed, but the loop runs for 0x100 iterations, so
the byte at 0xC1A0 is also copied to 0xFEA0 — outside FE00–FE9F, past the
160 bytes the spec prescribes — overwriting its previous value 0. -/
theorem claim_c7_dma_copies_256 :
    (c7Mmu.write_8 0xFF46 0xC1).map
        (fun mm => (mm.memory 0xFE05, mm.memory 0xFEA0, mm.memory 0xFEFF))
      = some (0x77, 0xAB, 0) ∧
    c7Mmu.memory 0xFEA0 = 0 ∧ 0xFE00 + spec_dma_byte_count - 1 < 0xFEA0 :=
  ⟨by decide, by decide, by decide⟩

/-- Claim C8: failing evaluation.  With LCDC bit 4 clear, tile index 0, row 0,
the spec's signed addressing reads the bitplane bytes at VRAM address 0x9000
(offset 0x1000, here 0x00 ⇒ color 0, the light shade of BGP = 0xE4), but the
rendered pixel is the dark shade: the code fetched the bytes at VRAM offset
0x800 (address 0x8800, unsigned indexing into `vram[0x0800..=0x17FF]`). -/
theorem claim_c8_bg_tile_addressing :
    (c8Ppu.draw_bg_line).map (fun p => p.pixel_buffer 0)
      = some (Color32.from_rgb 0x08 0x18 0x20) ∧
    c8Ppu.mmu.vram 0x800 = 0xFF ∧ c8Ppu.mmu.vram 0x1000 = 0 ∧
    spec_signed_tile_data_address 0 0 = 0x9000 ∧
    (ColorPalette.from_dmg_palette 0xE4).idx 0 = Color32.from_rgb 0xE0 0xF8 0xD0 ∧
    Color32.from_rgb 0x08 0x18 0x20 ≠ Color32.from_rgb 0xE0 0xF8 0xD0 :=
  ⟨by decide, by decide, by decide, by decide, by decide, by decide⟩

/-- Witness for C1 at IE = IF = 0x1F: VBlank (bit 0) is serviced, PC becomes
0x40, SP drops from 0xD000 to 0xCFFE, IF becomes 0x1E, cost is 20 T-cycles. -/
theorem claim_c1_witness :
    c1Machine.ime = true
    ∧ (∃ k, k < 5 ∧ (c1Machine.mmu.memory 0xFFFF % 256).testBit k
          ∧ (c1Machine.mmu.memory 0xFF0F % 256).testBit k)
    ∧ 0xC002 ≤ c1Machine.registers.sp ∧ c1Machine.registers.sp ≤ 0xDFFF
    ∧ (∃ k m',
        k < 5
        ∧ (c1Machine.mmu.memory 0xFFFF % 256).testBit k
        ∧ (c1Machine.mmu.memory 0xFF0F % 256).testBit k
        ∧ (∀ j, j < k → ¬((c1Machine.mmu.memory 0xFFFF % 256).testBit j
              ∧ (c1Machine.mmu.memory 0xFF0F % 256).testBit j))
        ∧ c1Machine.step = some (m', 20)
        ∧ m'.ime = false
        ∧ m'.halted = false
        ∧ m'.registers.pc = 0x40 + 8 * k
        ∧ m'.registers.sp = c1Machine.registers.sp - 2
        ∧ m'.mmu.memory 0xFF0F = (c1Machine.mmu.memory 0xFF0F % 256) &&& bnot8 (1 <<< k)
        ∧ m'.mmu.memory (c1Machine.registers.sp - 2) = c1Machine.registers.pc % 256
        ∧ m'.mmu.memory (c1Machine.registers.sp - 1) = (c1Machine.registers.pc >>> 8) % 256
        ∧ (∀ a, a ≠ 0xFF0F → a ≠ c1Machine.registers.sp - 2 →
              a ≠ c1Machine.registers.sp - 1 → m'.mmu.memory a = c1Machine.mmu.memory a))
    ∧ (c1Machine.step).map (fun r => (r.2, r.1.registers.pc, r.1.registers.sp,
        r.1.mmu.memory 0xFF0F, r.1.ime, r.1.halted)) = some (20, 0x40, 0xCFFE, 0x1E, false, false) :=
  ⟨rfl, ⟨0, by decide, by decide, by decide⟩, by decide, by decide,
   claim_c1_interrupt_dispatch c1Machine rfl ⟨0, by decide, by decide, by decide⟩
     (by decide) (by decide),
   by decide⟩

/-- Witness for C9 over all-zero memory. -/
theorem claim_c9_witness :
    c9Ppu.mode = .OAMSearch ∧ c9Ppu.line_to_draw = 0
    ∧ c9Ppu.mmu.memory 0xFF42 % 256 ≤ 112 ∧ c9Ppu.mmu.memory 0xFF43 % 256 ≤ 96
    ∧ (∃ p', c9Ppu.run 442 = some (p', 70224, 1)
        ∧ p'.mode = .OAMSearch ∧ p'.line_to_draw = 0) :=
  ⟨rfl, rfl, by decide, by decide,
   claim_c9_frame_timing c9Ppu rfl rfl (by decide) (by decide)⟩

end DmgRs

